import Mathlib

/-
Shallow embedding of the uni_prototype_listening client.

Sources embedded:
  - src/main.js               (continuous websocket lineage)
  - src/gemini-live.js        (continuous SDK lineage)
  - src/unnamed/part_002      (segmented websocket lineage with VAD)
plus the regex-based extractors, which are textually identical in all three
lineages and are therefore defined once.

JS numbers are modelled as rationals, JS strings as Lean strings (one Lean
Char per code point; places where JS indexes UTF-16 code units are modelled
with an explicit unit count).  Functions that in JS throw are modelled as
Option.  Times are naturals in milliseconds.
-/

/- The Batteries rational-number operations are irreducible by default,
which blocks definitional evaluation of the executable definitions below;
evaluation on concrete inputs needs them semireducible. -/
attribute [local semireducible] Rat.add Rat.mul Rat.inv Rat.sub

/-- The apostrophe character (U+0027), used to spell string constants that
contain it. -/
def aposC : Char := Char.ofNat 39

/-- One-character string holding the apostrophe. -/
def aposS : String := String.singleton aposC

/-- ASCII fragment of JS whitespace (space, tab, newline, carriage return,
form feed, vertical tab).  The non-ASCII JS whitespace code points never occur
in the texts handled here. -/
def isWsChar (c : Char) : Bool :=
  c == ' ' || c == '\t' || c == '\n' || c == '\x0d' || c == '\x0c' || c == '\x0b'

/-- JS String.prototype.toLowerCase restricted to the characters that occur in
the embedded texts (ASCII letters). -/
def jsLowerChar (c : Char) : Char := c.toLower

/-- Lower-case a whole string (models text.toLowerCase()). -/
def jsToLower (s : String) : String := String.mk (s.toList.map jsLowerChar)

/-- Does cs start with pat (exact characters)? -/
def listHasP (pat cs : List Char) : Bool := cs.take pat.length == pat

/-- Does cs start with pat after lower-casing cs (pat is given lower-case)?
Models a case-insensitive literal at the current position. -/
def listHasPrefCI (pat cs : List Char) : Bool :=
  (cs.take pat.length).map jsLowerChar == pat

/-- Models String.prototype.includes: is pat a contiguous substring of cs? -/
def containsSub (cs pat : List Char) : Bool :=
  match cs with
  | [] => pat == []
  | c :: rest => listHasP pat (c :: rest) || containsSub rest pat

/-- Index of the first position of cs at which the lower-cased text starts
with pat; models the position found by a case-insensitive regex literal. -/
def findCI (pat : List Char) (cs : List Char) : Option Nat :=
  match cs with
  | [] => if listHasPrefCI pat [] then some 0 else none
  | c :: rest =>
    if listHasPrefCI pat (c :: rest) then some 0
    else (findCI pat rest).map (· + 1)

/-- Strip leading and trailing JS whitespace from a character list. -/
def jsTrimList (cs : List Char) : List Char :=
  ((cs.dropWhile isWsChar).reverse.dropWhile isWsChar).reverse

/-- Models String.prototype.trim(). -/
def jsTrim (s : String) : String := String.mk (jsTrimList s.toList)

/-- Decimal digit test. -/
def isDigitC (c : Char) : Bool := '0' ≤ c && c ≤ '9'

/-- Numeric value of a decimal digit character. -/
def digitVal (c : Char) : Nat := c.toNat - 48

/-- Value of a digit list read most-significant first. -/
def natOfDigits (ds : List Nat) : Nat := ds.foldl (fun a d => a * 10 + d) 0

/-- Models JS parseFloat on the texts that occur here: optional leading
whitespace and sign, integer digits, optional fraction.  Exponents are not
modelled (none of the inputs considered carry one).  none models NaN. -/
def jsParseFloat (s : String) : Option ℚ :=
  let cs := s.toList.dropWhile isWsChar
  let signRest : Bool × List Char :=
    match cs with
    | c :: rest =>
      if c == '-' then (true, rest)
      else if c == '+' then (false, rest) else (false, c :: rest)
    | [] => (false, [])
  let ipRest := signRest.2.span isDigitC
  let fp : List Char :=
    match ipRest.2 with
    | c :: rest => if c == '.' then (rest.span isDigitC).1 else []
    | [] => []
  if ipRest.1.isEmpty && fp.isEmpty then none
  else
    let ipn : ℚ := (natOfDigits (ipRest.1.map digitVal) : ℚ)
    let fpn : ℚ := (natOfDigits (fp.map digitVal) : ℚ) / ((10 : ℚ) ^ fp.length)
    let v := ipn + fpn
    some (if signRest.1 then -v else v)

/-- Math.max on two (non-NaN) numbers. -/
def maxQ (a b : ℚ) : ℚ := if a ≤ b then b else a

/-- Math.min on two (non-NaN) numbers. -/
def minQ (a b : ℚ) : ℚ := if a ≤ b then a else b

/-- Models Math.max(lo, Math.min(hi, x)). -/
def clampQ (lo hi x : ℚ) : ℚ := maxQ lo (minQ hi x)

/-- JSON values as produced by JSON.parse. -/
inductive Json where
  | null
  | bool (b : Bool)
  | num (q : ℚ)
  | str (s : String)
  | arr (elems : List Json)
  | obj (fields : List (String × Json))

/-- First binding of a key in a field list.  (JS object literals with
duplicate keys keep the last; duplicates do not occur in any input
considered, so first-match lookup is equivalent here.) -/
def lookupField (fields : List (String × Json)) (k : String) : Option Json :=
  match fields with
  | [] => none
  | (k2, v) :: rest => if k2 == k then some v else lookupField rest k

/-- Property lookup on a parsed value; none models undefined (lookup on a
non-object yields undefined for the string keys used here). -/
def jsGet (j : Json) (k : String) : Option Json :=
  match j with
  | Json.obj fields => lookupField fields k
  | _ => none

/-- JS truthiness of a defined value. -/
def jsTruthy : Json → Bool
  | Json.null => false
  | Json.bool b => b
  | Json.num q => !(q == 0)
  | Json.str s => !(s == "")
  | Json.arr _ => true
  | Json.obj _ => true

/-- JS truthiness where none stands for undefined. -/
def jsTruthyO : Option Json → Bool
  | none => false
  | some v => jsTruthy v

/-- Models a JS chain a || b || ... || null: the first truthy value, else
null (returned as none). -/
def firstTruthy : List (Option Json) → Option Json
  | [] => none
  | x :: rest => if jsTruthyO x then x else firstTruthy rest

/-- Decimal rendering of a rational; exact for integers, which is the only
case String(x) is applied to a number on the paths the claims exercise. -/
def ratToString (q : ℚ) : String :=
  if q.den = 1 then toString q.num
  else toString q.num ++ "/" ++ toString q.den

/-- Models the JS String(x) coercion for the value shapes that occur here.
String on an array joins the elements; that path is not exercised by any
claim and is rendered as the empty string. -/
def jsStringOf : Json → String
  | Json.null => "null"
  | Json.bool b => if b then "true" else "false"
  | Json.num q => ratToString q
  | Json.str s => s
  | Json.arr _ => ""
  | Json.obj _ => "[object Object]"

/-- String coercion where none stands for undefined. -/
def jsStringOfO : Option Json → String
  | none => "undefined"
  | some v => jsStringOf v

/-- Fuel-bounded JSON.stringify used only for the analysis-object fallback;
string escaping is not modelled (irrelevant to every claim: only the
truthiness of the result matters on the paths considered). -/
def jsStringifyF : Nat → Json → String
  | 0, _ => "null"
  | fuel + 1, j =>
    match j with
    | Json.null => "null"
    | Json.bool b => if b then "true" else "false"
    | Json.num q => ratToString q
    | Json.str s => "\"" ++ s ++ "\""
    | Json.arr es =>
      "[" ++ String.intercalate (",") (es.map (jsStringifyF fuel)) ++ "]"
    | Json.obj fs =>
      "\x7b" ++
        String.intercalate (",")
          (fs.map (fun kv => "\"" ++ kv.1 ++ "\":" ++ jsStringifyF fuel kv.2)) ++
        "\x7d"

/-- Models JSON.stringify for the fallback path.  The fixed fuel bounds the
nesting depth rendered; deeper values degrade to a still-nonempty rendering,
which preserves the only property of this string any claim depends on
(truthiness). -/
def jsStringify (j : Json) : String := jsStringifyF 1000000 j

/-- Drop leading JSON whitespace. -/
def skipWsL (cs : List Char) : List Char := cs.dropWhile isWsChar

/-- Parse the body of a JSON string literal (the opening quote already
consumed), returning the decoded string and the remaining input.  The escape
forms needed by the inputs considered are handled; \u escapes are not (none
occur). -/
def psGo (acc : List Char) (cs : List Char) : Option (String × List Char) :=
  match cs with
  | [] => none
  | c :: rest =>
    if c == '"' then some (String.mk acc.reverse, rest)
    else if c == '\\' then
      match rest with
      | [] => none
      | e :: rest2 =>
        if e == '"' || e == '\\' || e == '/' then psGo (e :: acc) rest2
        else if e == 'n' then psGo ('\n' :: acc) rest2
        else if e == 't' then psGo ('\t' :: acc) rest2
        else if e == 'r' then psGo ('\x0d' :: acc) rest2
        else none
    else psGo (c :: acc) rest

/-- Parse a JSON number (optional minus, digits, optional fraction).
Exponents and the leading-zero restriction are not modelled (no input
considered uses them). -/
def parseNum (cs : List Char) : Option (ℚ × List Char) :=
  let signRest : Bool × List Char :=
    match cs with
    | c :: rest => if c == '-' then (true, rest) else (false, c :: rest)
    | [] => (false, [])
  let ipRest := signRest.2.span isDigitC
  if ipRest.1.isEmpty then none
  else
    let ipn : ℚ := (natOfDigits (ipRest.1.map digitVal) : ℚ)
    match ipRest.2 with
    | '.' :: rest2 =>
      let fpRest := rest2.span isDigitC
      if fpRest.1.isEmpty then none
      else
        let fpn : ℚ :=
          (natOfDigits (fpRest.1.map digitVal) : ℚ) / ((10 : ℚ) ^ fpRest.1.length)
        some (if signRest.1 then -(ipn + fpn) else ipn + fpn, fpRest.2)
    | other => some (if signRest.1 then -ipn else ipn, other)

/-- Parse phases of the recursive-descent JSON parser, folded into one
structurally recursive function so that it evaluates definitionally. -/
inductive PMode where
  | val
  | objBody
  | objFields (acc : List (String × Json))
  | arrBody
  | arrElems (acc : List Json)

/-- Fuel-bounded recursive-descent parser for a JSON value (one function
over all phases, structural on the fuel). -/
def parseF : Nat → PMode → List Char → Option (Json × List Char)
  | 0, _, _ => none
  | Nat.succ fuel, PMode.val, cs =>
    match skipWsL cs with
    | 'n' :: 'u' :: 'l' :: 'l' :: rest => some (Json.null, rest)
    | 't' :: 'r' :: 'u' :: 'e' :: rest => some (Json.bool true, rest)
    | 'f' :: 'a' :: 'l' :: 's' :: 'e' :: rest => some (Json.bool false, rest)
    | '"' :: rest => (psGo [] rest).map (fun p => (Json.str p.1, p.2))
    | '{' :: rest => parseF fuel PMode.objBody rest
    | '[' :: rest => parseF fuel PMode.arrBody rest
    | other => (parseNum other).map (fun p => (Json.num p.1, p.2))
  | Nat.succ fuel, PMode.objBody, cs =>
    match skipWsL cs with
    | '}' :: rest => some (Json.obj [], rest)
    | _ => parseF fuel (PMode.objFields []) cs
  | Nat.succ fuel, PMode.objFields acc, cs =>
    match skipWsL cs with
    | '"' :: rest =>
      match psGo [] rest with
      | none => none
      | some (k, rest2) =>
        match skipWsL rest2 with
        | ':' :: rest3 =>
          match parseF fuel PMode.val rest3 with
          | none => none
          | some (v, rest4) =>
            match skipWsL rest4 with
            | ',' :: rest5 => parseF fuel (PMode.objFields ((k, v) :: acc)) rest5
            | '}' :: rest5 => some (Json.obj ((k, v) :: acc).reverse, rest5)
            | _ => none
        | _ => none
    | _ => none
  | Nat.succ fuel, PMode.arrBody, cs =>
    match skipWsL cs with
    | ']' :: rest => some (Json.arr [], rest)
    | _ => parseF fuel (PMode.arrElems []) cs
  | Nat.succ fuel, PMode.arrElems acc, cs =>
    match parseF fuel PMode.val cs with
    | none => none
    | some (v, rest) =>
      match skipWsL rest with
      | ',' :: rest2 => parseF fuel (PMode.arrElems (v :: acc)) rest2
      | ']' :: rest2 => some (Json.arr (v :: acc).reverse, rest2)
      | _ => none

/-- Entry point of the parser. -/
def parseVal (fuel : Nat) (cs : List Char) : Option (Json × List Char) :=
  parseF fuel PMode.val cs

/-- Models JSON.parse: one JSON value covering the whole input (trailing
whitespace allowed); none models a thrown SyntaxError. -/
def jsonParse (s : String) : Option Json :=
  let cs := s.toList
  match parseVal (4 * cs.length + 8) cs with
  | some (v, rest) => if skipWsL rest == [] then some v else none
  | none => none

/-
Regex-based extractors.  extractTranscript, extractAnalysis and extractEmoji
are textually identical in src/main.js, src/unnamed/part_002 and
src/gemini-live.js; they are embedded once here.  The lazy captures
(.+?) are modelled as: greedily skip the \s* whitespace after the label, then
take the shortest nonempty span whose end position satisfies the terminator
alternation.  This matches the regex engine on every input in which
non-whitespace text follows the label; the backtracking corner case in which
the engine shrinks the \s* to let the capture start on whitespace can only
ever produce a capture that trims to the empty string, which every consumer
treats exactly like the absent capture this model returns.
-/

/-- Lower-case label "transcript:". -/
def transcriptLabel : List Char := ("transcript:").toList

/-- Lower-case label "analysis:". -/
def analysisLabel : List Char := ("analysis:").toList

/-- Lower-case label "emoji:". -/
def emojiLabel : List Char := ("emoji:").toList

/-- Terminator of the transcript capture: (?:\n|Analysis:|Emoji:|$). -/
def isTermT (rest : List Char) : Bool :=
  match rest with
  | [] => true
  | c :: _ =>
    c == '\n' || listHasPrefCI analysisLabel rest || listHasPrefCI emojiLabel rest

/-- Shortest nonempty capture for the transcript regex. -/
def capT : List Char → List Char
  | [] => []
  | c :: rest => c :: (if isTermT rest then [] else capT rest)

/-- Models extractTranscript: first case-insensitive "Transcript:" label,
capture up to the next newline, "Analysis:", "Emoji:" or end, trimmed;
null when the label is absent. -/
def extractTranscript (text : String) : Option String :=
  let cs := text.toList
  match findCI transcriptLabel cs with
  | none => none
  | some p =>
    let rest := (cs.drop (p + transcriptLabel.length)).dropWhile isWsChar
    match rest with
    | [] => none
    | _ => some (jsTrim (String.mk (capT rest)))

/-- Terminator of the analysis capture: (?:\n\s*Emoji:|$). -/
def isTermA (rest : List Char) : Bool :=
  match rest with
  | [] => true
  | c :: rest2 => c == '\n' && listHasPrefCI emojiLabel (rest2.dropWhile isWsChar)

/-- Shortest nonempty capture for the analysis regex. -/
def capA : List Char → List Char
  | [] => []
  | c :: rest => c :: (if isTermA rest then [] else capA rest)

/-- Suffix of cs starting at the first position where the lookahead
(?=Analysis:|Emoji:|$) holds; models the end of the lazy .*? span removed by
the fallback replace. -/
def dropUntilLookahead : List Char → List Char
  | [] => []
  | c :: rest =>
    if listHasPrefCI analysisLabel (c :: rest) || listHasPrefCI emojiLabel (c :: rest) then
      c :: rest
    else dropUntilLookahead rest

/-- Models text.replace(/Transcript:.*?(?=Analysis:|Emoji:|$)/is, ''):
removes the first "Transcript:" label and the lazy span after it. -/
def removeTranscriptSpan (cs : List Char) : List Char :=
  match findCI transcriptLabel cs with
  | none => cs
  | some p =>
    cs.take p ++ dropUntilLookahead (cs.drop (p + transcriptLabel.length))

/-- Models text.replace(/Emoji:\s*.*/i, ''): removes the first "Emoji:"
label, the whitespace after it and the rest of that line (the dot does not
cross a newline because the /s flag is absent here). -/
def removeEmojiSuffix (cs : List Char) : List Char :=
  match findCI emojiLabel cs with
  | none => cs
  | some p =>
    cs.take p ++
      (((cs.drop (p + emojiLabel.length)).dropWhile isWsChar).dropWhile
        (fun c => !(c == '\n')))

/-- Models extractAnalysis: first case-insensitive "Analysis:" label, capture
up to a newline-then-"Emoji:" or end, trimmed; with the label absent, the
full text with the "Transcript:" span and the "Emoji:" suffix stripped,
trimmed.  Always returns a string, as the source does. -/
def extractAnalysis (text : String) : String :=
  let cs := text.toList
  let fallback := jsTrim (String.mk (removeEmojiSuffix (removeTranscriptSpan cs)))
  match findCI analysisLabel cs with
  | none => fallback
  | some p =>
    let rest := (cs.drop (p + analysisLabel.length)).dropWhile isWsChar
    match rest with
    | [] => fallback
    | _ => jsTrim (String.mk (capA rest))

/-- Membership in the pictographic/symbol ranges of the fallback emoji
regex. -/
def isEmojiChar (c : Char) : Bool :=
  let n := c.toNat
  (0x1F300 ≤ n && n ≤ 0x1F9FF) || (0x1F600 ≤ n && n ≤ 0x1F64F) ||
  (0x1F680 ≤ n && n ≤ 0x1F6FF) || (0x2600 ≤ n && n ≤ 0x26FF) ||
  (0x2700 ≤ n && n ≤ 0x27BF) || (0x1F1E0 ≤ n && n ≤ 0x1F1FF) ||
  (0x1F900 ≤ n && n ≤ 0x1F9FF) || (0x1FA00 ≤ n && n ≤ 0x1FA6F) ||
  (0x1FA70 ≤ n && n ≤ 0x1FAFF)

/-- UTF-16 code units occupied by a code point. -/
def utf16Units (c : Char) : Nat := if c.toNat ≥ 0x10000 then 2 else 1

/-- Models substring(0, 2) on the UTF-16 representation: take code points
while they fit in the unit budget.  (A split surrogate pair, which JS would
truncate to a lone surrogate, is dropped; no claim input produces one.) -/
def takeUtf16 (budget : Nat) : List Char → List Char
  | [] => []
  | c :: rest =>
    if utf16Units c ≤ budget then c :: takeUtf16 (budget - utf16Units c) rest
    else []

/-- Fallback scan of the whole text for the first pictographic character;
the placeholder glyph when none is found. -/
def emojiScan (cs : List Char) : String :=
  match cs.find? (fun c => isEmojiChar c) with
  | some c => String.singleton c
  | none => "💬"

/-- Models extractEmoji: first case-insensitive "Emoji:" label, capture the
following non-whitespace token cut to two UTF-16 units; with the label absent
(or followed by nothing), scan for a pictographic character; else the
placeholder glyph. -/
def extractEmoji (text : String) : String :=
  let cs := text.toList
  match findCI emojiLabel cs with
  | some p =>
    let rest := (cs.drop (p + emojiLabel.length)).dropWhile isWsChar
    match rest with
    | [] => emojiScan cs
    | _ => String.mk (takeUtf16 2 (rest.takeWhile (fun c => !(isWsChar c))))
  | none => emojiScan cs

/-
Response Normalizer (src/gemini-live.js parseResponse, lines 319-454).
-/

/-- The canonical analysis record built by parseResponse.  The raw debugging
field of the source is not carried.  Fields that in JS can hold any JSON
value are typed Option Json; none models null/undefined. -/
structure AnalysisResult where
  transcript : Option Json
  analysis : Option Json
  sentiment : Option Json
  emotion : Option Json
  emoji : Json
  confidence : Option ℚ
  color : Option String
  speed : Option ℚ
  smooth : Option ℚ

/-- The analysis synthesis for a non-string analysis value of object type:
prefer uni_personal_reaction, then response_suggestion, else join the
labelled sentiment.overall / tone / emotion_detected components, else
JSON.stringify of the value. -/
def analysisFromObj (ao : Json) : Option Json :=
  if jsTruthyO (jsGet ao ("uni_personal_reaction")) then jsGet ao ("uni_personal_reaction")
  else if jsTruthyO (jsGet ao ("response_suggestion")) then jsGet ao ("response_suggestion")
  else
    let p1 : List String :=
      match (jsGet ao ("sentiment")).bind (fun so => jsGet so ("overall")) with
      | some v => if jsTruthy v then [("Sentiment: ") ++ jsStringOf v] else []
      | none => []
    let p2 : List String :=
      match jsGet ao ("tone") with
      | some v => if jsTruthy v then [("Tone: ") ++ jsStringOf v] else []
      | none => []
    let p3 : List String :=
      match jsGet ao ("emotion_detected") with
      | some v => if jsTruthy v then [("Emotion: ") ++ jsStringOf v] else []
      | none => []
    let joined := String.intercalate (". ") (p1 ++ p2 ++ p3)
    some (Json.str (if joined == "" then jsStringify ao else joined))

/-- The analysis field: a string is used directly; an object (JS typeof
'object', null excluded — arrays included) goes through analysisFromObj;
anything else stays null. -/
def analysisField (j : Json) : Option Json :=
  match jsGet j ("analysis") with
  | some (Json.str s) => some (Json.str s)
  | some (Json.obj fs) => analysisFromObj (Json.obj fs)
  | some (Json.arr es) => analysisFromObj (Json.arr es)
  | _ => none

/-- The sentiment field: top-level string, else sentiment.overall, else
analysis.sentiment.overall (each under a truthiness check), else null. -/
def sentimentField (j : Json) : Option Json :=
  match jsGet j ("sentiment") with
  | some (Json.str s) => some (Json.str s)
  | _ =>
    let nested := (jsGet j ("sentiment")).bind (fun so => jsGet so ("overall"))
    if jsTruthyO nested then nested
    else
      let deep :=
        ((jsGet j ("analysis")).bind (fun a => jsGet a ("sentiment"))).bind
          (fun so => jsGet so ("overall"))
      if jsTruthyO deep then deep else none

/-- The emotion field: emotion || analysis?.emotion_detected || null. -/
def emotionField (j : Json) : Option Json :=
  firstTruthy [jsGet j ("emotion"), (jsGet j ("analysis")).bind (fun a => jsGet a ("emotion_detected"))]

/-- The emoji field: emoji || placeholder glyph. -/
def emojiField (j : Json) : Json :=
  match firstTruthy [jsGet j ("emoji")] with
  | some v => v
  | none => Json.str ("💬")

/-- The confidence field: a number is used as is, a string goes through
parseFloat, anything else is null.  (A boolean would survive the source's
isNaN check unconverted; no claim touches that path.) -/
def confidenceField (j : Json) : Option ℚ :=
  match jsGet j ("confidence") with
  | some (Json.num q) => some q
  | some (Json.str s) => jsParseFloat s
  | _ => none

/-- The color field: a truthy value is string-coerced, a leading 0x/0X is
replaced by #, and a # prefix is ensured; else null. -/
def colorField (j : Json) : Option String :=
  match firstTruthy [jsGet j ("color")] with
  | none => none
  | some v =>
    let s := jsStringOf v
    let s2 :=
      match s.toList with
      | '0' :: c :: rest =>
        if c == 'x' || c == 'X' then String.mk ('#' :: rest) else s
      | _ => s
    some (if listHasP (("#").toList) s2.toList then s2 else ("#") ++ s2)

/-- The speed field: number or parseFloat-coerced string or numerically
coerced boolean, clamped to [-1, 1]; else null.  (JS would also numerically
coerce one-element arrays; that path is not modelled and is unreachable from
any claim.) -/
def speedField (j : Json) : Option ℚ :=
  match jsGet j ("speed") with
  | some (Json.num q) => some (clampQ (-1) 1 q)
  | some (Json.str s) => (jsParseFloat s).map (clampQ (-1) 1)
  | some (Json.bool b) => some (clampQ (-1) 1 (if b then 1 else 0))
  | _ => none

/-- The smooth field: as speedField but clamped to [0, 1]. -/
def smoothField (j : Json) : Option ℚ :=
  match jsGet j ("smooth") with
  | some (Json.num q) => some (clampQ 0 1 q)
  | some (Json.str s) => (jsParseFloat s).map (clampQ 0 1)
  | some (Json.bool b) => some (clampQ 0 1 (if b then 1 else 0))
  | _ => none

/-- JSON field normalization of parseResponse, applied once an object is
obtained (dialects 1-2). -/
def normalizeJson (j : Json) : AnalysisResult :=
  { transcript := firstTruthy [jsGet j ("transcript"), jsGet j ("transcription")]
    analysis := analysisField j
    sentiment := sentimentField j
    emotion := emotionField j
    emoji := emojiField j
    confidence := confidenceField j
    color := colorField j
    speed := speedField j
    smooth := smoothField j }

/-- Dialect 1: JSON.parse(text.trim()). -/
def strictParse (text : String) : Option Json := jsonParse (jsTrim text)

/-- The substring selected by text.match(/\x7b[\s\S]*\x7d/): from the first
opening brace to the last closing brace (a greedy span, not a balanced
one); none when no such span exists. -/
def greedySub (text : String) : Option String :=
  let cs := text.toList
  match cs.findIdx? (fun c => c == '{'), cs.reverse.findIdx? (fun c => c == '}') with
  | some i, some jr =>
    let j := cs.length - 1 - jr
    if i < j then some (String.mk ((cs.drop i).take (j - i + 1))) else none
  | _, _ => none

/-- Dialect 2: JSON.parse of the greedy brace span. -/
def embeddedParse (text : String) : Option Json := (greedySub text).bind jsonParse

/-- The object obtained by the try block of parseResponse: strict parse,
else the embedded greedy-span parse; none models the thrown error that sends
control to the regex fallback. -/
def jsonObtain (text : String) : Option Json :=
  match strictParse text with
  | some j => some j
  | none => embeddedParse text

/-- Truthiness of a JS value that is null or a string. -/
def truthyS : Option String → Bool
  | none => false
  | some s => !(s == "")

/-- Dialect 3: the regex extractors, returning a record carrying only
transcript, analysis and emoji, accepted when transcript or analysis is
truthy. -/
def dialect3 (text : String) : Option AnalysisResult :=
  let t := extractTranscript text
  let a := extractAnalysis text
  let e := extractEmoji text
  if truthyS t || !(a == "") then
    some { transcript := t.map Json.str, analysis := some (Json.str a),
           sentiment := none, emotion := none, emoji := Json.str e,
           confidence := none, color := none, speed := none, smooth := none }
  else none

/-- Models parseResponse of src/gemini-live.js: strict JSON, else embedded
greedy-span JSON, normalized and accepted when transcript or analysis is
truthy; else the regex fallback. -/
def parseResponse (text : String) : Option AnalysisResult :=
  match jsonObtain text with
  | some j =>
    let r := normalizeJson j
    if jsTruthyO r.transcript || jsTruthyO r.analysis then some r else dialect3 text
  | none => dialect3 text

/-
Frame Encoder.
src/main.js processAudioChunk lines 162-177 and src/unnamed/part_002
sendAudioForAnalysis lines 208-214 / 307-317 share the clamp-and-split
conversion and the byte/base64 path; src/gemini-live.js createBlob lines
215-227 multiplies by 32768 with no clamp.  Int16Array element assignment is
ToInt16: truncation toward zero followed by a two's-complement wrap.
-/

/-- Truncation toward zero, as applied by JS when a number is stored into an
Int16Array. -/
def jsTruncQ (q : ℚ) : ℤ := if q < 0 then ⌈q⌉ else ⌊q⌋

/-- Two's-complement wrap into the signed 16-bit range. -/
def wrapInt16 (n : ℤ) : ℤ := (n + 32768) % 65536 - 32768

/-- Math.max(-1, Math.min(1, x)). -/
def clampSample (x : ℚ) : ℚ := maxQ (-1) (minQ 1 x)

/-- The websocket lineages: clamp, then scale negatives by 0x8000 and
non-negatives by 0x7FFF, stored into an Int16Array. -/
def pcm16Sample (x : ℚ) : ℤ :=
  let s := clampSample x
  wrapInt16 (jsTruncQ (if s < 0 then s * 32768 else s * 32767))

/-- src/gemini-live.js createBlob: pcmData[i] * 32768 stored into an
Int16Array, with no clamp and no sign split. -/
def createBlobSample (x : ℚ) : ℤ := wrapInt16 (jsTruncQ (x * 32768))

/-- The reverse scale of the C2 round-trip property: negatives divide by
32768, non-negatives by 32767. -/
def decodeSample (v : ℤ) : ℚ := if v < 0 then (v : ℚ) / 32768 else (v : ℚ) / 32767

/-- Little-endian bytes of a 16-bit sample as exposed by a Uint8Array view
of the Int16Array buffer. -/
def toBytesLE (v : ℤ) : List Nat :=
  let u := (v % 65536).toNat
  [u % 256, u / 256]

/-- Signed reading of a 16-bit unsigned value. -/
def signed16 (u : Nat) : ℤ := if u < 32768 then (u : ℤ) else (u : ℤ) - 65536

/-- Pair consecutive bytes (little-endian) back into signed samples. -/
def bytePairsToInts : List Nat → List ℤ
  | lo :: hi :: rest => signed16 (lo + 256 * hi) :: bytePairsToInts rest
  | _ => []

/-- The standard base64 alphabet by 6-bit value. -/
def b64Char (n : Nat) : Char :=
  if n < 26 then Char.ofNat (65 + n)
  else if n < 52 then Char.ofNat (97 + (n - 26))
  else if n < 62 then Char.ofNat (48 + (n - 52))
  else if n = 62 then '+'
  else '/'

/-- Inverse of the base64 alphabet (0 on characters outside it). -/
def b64Val (c : Char) : Nat :=
  let n := c.toNat
  if 65 ≤ n && n ≤ 90 then n - 65
  else if 97 ≤ n && n ≤ 122 then n - 97 + 26
  else if 48 ≤ n && n ≤ 57 then n - 48 + 52
  else if n = 43 then 62
  else if n = 47 then 63
  else 0

/-- Character for a 6-bit value, with 64 rendered as the padding sign. -/
def b64CharOfVal (n : Nat) : Char := if n = 64 then '=' else b64Char n

/-- 6-bit value of a character, with the padding sign read as 64. -/
def b64CharToVal (c : Char) : Nat := if c == '=' then 64 else b64Val c

/-- btoa at the level of 6-bit values: bytes are regrouped 3-into-4, with 64
standing for the padding sign. -/
def b64EncodeVals : List Nat → List Nat
  | [] => []
  | [b0] => [b0 / 4, b0 % 4 * 16, 64, 64]
  | [b0, b1] => [b0 / 4, b0 % 4 * 16 + b1 / 16, b1 % 16 * 4, 64]
  | b0 :: b1 :: b2 :: rest =>
    b0 / 4 :: (b0 % 4 * 16 + b1 / 16) :: (b1 % 16 * 4 + b2 / 64) :: b2 % 64 ::
      b64EncodeVals rest

/-- atob at the level of 6-bit values (64 standing for the padding sign). -/
def b64DecodeVals : List Nat → List Nat
  | v0 :: v1 :: v2 :: v3 :: rest =>
    if v2 = 64 then [v0 * 4 + v1 / 16]
    else if v3 = 64 then [v0 * 4 + v1 / 16, v1 % 16 * 16 + v2 / 4]
    else
      (v0 * 4 + v1 / 16) :: (v1 % 16 * 16 + v2 / 4) :: (v2 % 4 * 64 + v3) ::
        b64DecodeVals rest
  | _ => []

/-- Models btoa over a byte list.  (The source builds the binary string in
8192-byte chunks before one btoa call; the chunking is pure concatenation and
has no effect on the result.) -/
def b64EncodeStr (bs : List Nat) : String :=
  String.mk ((b64EncodeVals bs).map b64CharOfVal)

/-- Models atob back to a byte list. -/
def b64DecodeStr (s : String) : List Nat :=
  b64DecodeVals (s.toList.map b64CharToVal)

/-- The byte sequence of a frame under the websocket-lineage conversion. -/
def samplesToBytes (samples : List ℚ) : List Nat :=
  (samples.map (fun x => toBytesLE (pcm16Sample x))).flatten

/-- The data field produced by the websocket-lineage Frame Encoder (main.js
processAudioChunk / part_002 sendAudioForAnalysis): PCM bytes, base64. -/
def frameEncode (samples : List ℚ) : String := b64EncodeStr (samplesToBytes samples)

/-- Reverse base64 and reverse scale, as in the C2 round-trip property. -/
def frameDecode (s : String) : List ℚ :=
  (bytePairsToInts (b64DecodeStr s)).map decodeSample

/-- The data field produced by src/gemini-live.js createBlob. -/
def createBlobData (samples : List ℚ) : String :=
  b64EncodeStr ((samples.map (fun x => toBytesLE (createBlobSample x))).flatten)

/-
Turn Reassembler / message handlers and Presentation Sink calls.
-/

/-- One call at the Presentation Sink boundary.  DOM writes of main.js and
part_002 (emojiDisplay.textContent, descriptionDiv.textContent) are the
setEmoji / setDescription calls; updateStatus is status; addToTranscriptLog
is log; updateDisplay is display; showListeningAnimation is listening. -/
inductive SinkCall where
  | status (s : String)
  | display (r : AnalysisResult)
  | log (t a : String)
  | setEmoji (e : String)
  | setDescription (d : String)
  | listening

/-- Did a transcript-log call happen? -/
def hasLog (cs : List SinkCall) : Bool :=
  cs.any (fun c => match c with | SinkCall.log _ _ => true | _ => false)

/-- Did a display (updateDisplay) call happen? -/
def hasDisplay (cs : List SinkCall) : Bool :=
  cs.any (fun c => match c with | SinkCall.display _ => true | _ => false)

/-- Inbound message shapes consumed by handleGeminiResponse: the
setup-complete marker, a toolConfig/config acknowledgement (part_002 only
branch), an error payload carrying its message text, a content payload with
an optional modelTurn part list plus the turnComplete and interrupted flags,
or a malformed message on which JSON.parse of the envelope throws. -/
inductive Msg where
  | setupDone
  | configMsg
  | errorMsg (message : String)
  | content (modelTurn : Option (List String)) (turnComplete : Bool) (interrupted : Bool)
  | malformed
deriving DecidableEq

/-- Append the text of each truthy part to the accumulator (the source
appends part.text under an if (part.text) truthiness guard). -/
def appendParts (acc : String) (parts : List String) : String :=
  acc ++ String.join (parts.filter (fun p => !(p == "")))

/-- The five filler phrases of the part_002 filter, lower-case. -/
def fillerPhrases : List String :=
  [("i") ++ aposS ++ ("m ready"), "please provide", "waiting for",
   "ready when you are", "send the audio"]

/-- Does the lower-cased text contain a filler phrase as a substring? -/
def containsFiller (t : String) : Bool :=
  fillerPhrases.any (fun p => containsSub (jsToLower t).toList p.toList)

/-- part_002 lines 427-435: a turn text counts as an actual analysis iff it
is longer than 20 characters and contains none of the filler phrases
(case-insensitive substring).  (JS measures length in UTF-16 units; the
texts considered are ASCII, where units and code points agree.) -/
def isActualAnalysis (t : String) : Bool :=
  decide (20 < t.length) && !(containsFiller t)

namespace MainJS

/-- Module-level state of src/main.js touched by handleGeminiResponse. -/
structure St where
  setupComplete : Bool
  credentialSaved : Bool
  accumulatedText : String
  currentTurnActive : Bool

/-- State at page load. -/
def initSt : St :=
  { setupComplete := false, credentialSaved := false, accumulatedText := "",
    currentTurnActive := false }

/-- Models src/main.js handleGeminiResponse (lines 198-299): the marker,
error, content and malformed branches, returning the new state and the
Presentation Sink calls made.  The error branch resets only the accumulator;
the catch branch resets the accumulator and the turn flag. -/
def handleGeminiResponse (st : St) (m : Msg) : St × List SinkCall :=
  match m with
  | Msg.setupDone =>
    ({ st with setupComplete := true, credentialSaved := true },
     [SinkCall.setEmoji ("🎤"),
      SinkCall.setDescription ("Speak naturally - streaming audio to Gemini")])
  | Msg.configMsg => (st, [])
  | Msg.errorMsg message =>
    ({ st with accumulatedText := "" }, [SinkCall.status (("Error: ") ++ message)])
  | Msg.malformed =>
    ({ st with accumulatedText := "", currentTurnActive := false }, [])
  | Msg.content modelTurn turnComplete _interrupted =>
    let step1 : St × List SinkCall :=
      match modelTurn with
      | none => (st, [])
      | some parts =>
        if st.currentTurnActive then
          ({ st with accumulatedText := appendParts st.accumulatedText parts }, [])
        else
          ({ st with currentTurnActive := true,
                     accumulatedText := appendParts st.accumulatedText parts },
           [SinkCall.setEmoji ("⏳"), SinkCall.setDescription ("Analyzing...")])
    let st1 := step1.1
    if turnComplete then
      let st2 := { st1 with currentTurnActive := false }
      if st2.accumulatedText == "" then
        (st2, step1.2 ++ [SinkCall.status ("Streaming audio...")])
      else
        let t := extractTranscript st2.accumulatedText
        let a := extractAnalysis st2.accumulatedText
        let e := extractEmoji st2.accumulatedText
        let inner : List SinkCall :=
          if truthyS t && !(a == "") then
            [SinkCall.log (t.getD ("")) a, SinkCall.setEmoji e, SinkCall.setDescription a]
          else []
        ({ st2 with accumulatedText := "" },
         step1.2 ++ inner ++ [SinkCall.status ("Streaming audio...")])
    else (st1, step1.2)

end MainJS

namespace Part002

/-- Module-level state of src/unnamed/part_002 touched by
handleGeminiResponse.  This lineage has no currentTurnActive flag. -/
structure St where
  setupComplete : Bool
  credentialSaved : Bool
  isProcessing : Bool
  hasSpeech : Bool
  accumulatedText : String

/-- State at page load. -/
def initSt : St :=
  { setupComplete := false, credentialSaved := false, isProcessing := false,
    hasSpeech := false, accumulatedText := "" }

/-- Models src/unnamed/part_002 handleGeminiResponse (lines 364-494),
including the toolConfig/config acknowledgement branch and the filler filter
on turn completion. -/
def handleGeminiResponse (st : St) (m : Msg) : St × List SinkCall :=
  match m with
  | Msg.setupDone =>
    ({ st with setupComplete := true, credentialSaved := true },
     [SinkCall.setEmoji ("🎤"), SinkCall.setDescription ("Waiting for Speech")])
  | Msg.configMsg => ({ st with setupComplete := true }, [])
  | Msg.errorMsg message =>
    ({ st with isProcessing := false, accumulatedText := "" },
     [SinkCall.status (("Error: ") ++ message)])
  | Msg.malformed =>
    ({ st with isProcessing := false, accumulatedText := "" },
     [SinkCall.status ("Ready. Start speaking...")])
  | Msg.content modelTurn turnComplete _interrupted =>
    let stA :=
      match modelTurn with
      | none => st
      | some parts => { st with accumulatedText := appendParts st.accumulatedText parts }
    if turnComplete then
      if stA.accumulatedText == "" then
        ({ stA with isProcessing := false }, [SinkCall.status ("Ready. Start speaking...")])
      else if isActualAnalysis stA.accumulatedText then
        let t := extractTranscript stA.accumulatedText
        let a := extractAnalysis stA.accumulatedText
        let e := extractEmoji stA.accumulatedText
        let logs : List SinkCall :=
          match t with
          | some ts => if !(ts == "") then [SinkCall.log ts a] else []
          | none => []
        ({ stA with accumulatedText := "", isProcessing := false },
         logs ++
           [SinkCall.setEmoji e,
            SinkCall.setDescription (if a == "" then ("Analysis not available") else a),
            SinkCall.status ("Ready. Start speaking...")])
      else
        ({ stA with accumulatedText := "", isProcessing := false },
         if stA.hasSpeech then
           [SinkCall.setEmoji ("🔴"), SinkCall.setDescription ("Recording"),
            SinkCall.status ("Recording...")]
         else
           [SinkCall.setEmoji ("🎤"), SinkCall.setDescription ("Waiting for Speech"),
            SinkCall.status ("Ready. Start speaking...")])
    else (stA, [])

end Part002

namespace GeminiLive

/-- Connection-object state of src/gemini-live.js touched by the callbacks
modelled here. -/
structure St where
  setupComplete : Bool
  credentialSaved : Bool
  isRecording : Bool
  accumulatedText : String
  currentTurnActive : Bool
  timerPending : Bool

/-- State after construction. -/
def initSt : St :=
  { setupComplete := false, credentialSaved := false, isRecording := false,
    accumulatedText := "", currentTurnActive := false, timerPending := false }

/-- Models the onopen callback (lines 86-105): the API key is written to
localStorage immediately, and a 500 ms timeout is scheduled; no
setup-complete marker is involved. -/
def onopen (st : St) : St :=
  { st with credentialSaved := true, timerPending := true }

/-- Models the body of the 500 ms setTimeout inside onopen: setupComplete is
forced true and the microphone is started (capture assumed granted). -/
def openTimerFire (st : St) : St :=
  { st with setupComplete := true, isRecording := true, timerPending := false }

/-- Models the onerror callback (lines 110-113): a status message only; the
accumulator and the turn flag are untouched. -/
def onerror (st : St) (message : String) : St × List SinkCall :=
  (st, [SinkCall.status (("Gemini error: ") ++ message)])

/-- Models the result dispatch of handleGeminiResponse lines 284-298, given
a non-null normalized result: log and display when transcript and analysis
are both truthy, display alone when only analysis is, nothing otherwise.
The unconditional status / listening-animation updates after this block are
outside it and not part of this dispatch. -/
def responseSinkCalls (r : AnalysisResult) : List SinkCall :=
  if jsTruthyO r.transcript && jsTruthyO r.analysis then
    [SinkCall.log (jsStringOfO r.transcript) (jsStringOfO r.analysis),
     SinkCall.display r]
  else if jsTruthyO r.analysis then [SinkCall.display r]
  else []

end GeminiLive

/-
Session Protocol Driver lifecycle (websocket lineages).
src/main.js connectToGemini lines 52-115 / src/unnamed/part_002
connectToGemini lines 63-118: onopen sends the setup message and then starts
the microphone; setupComplete and the credential write happen only in the
setup-complete message branch of handleGeminiResponse; onclose tears
everything down.  Microphone access is assumed granted (the denied path only
leaves isRecording false and is not the execution any claim quantifies
over).
-/

/-- Transport-lifecycle events of a websocket-lineage connection. -/
inductive WsEvent where
  | transportOpen
  | message (m : Msg)
  | transportClose
deriving DecidableEq

namespace MainJS

/-- Driver state: the handler state plus capture and transport flags. -/
structure DrvSt where
  setupComplete : Bool
  credentialSaved : Bool
  isRecording : Bool
  wsOpen : Bool
  accumulatedText : String
  currentTurnActive : Bool

/-- Driver state before connect. -/
def drvInit : DrvSt :=
  { setupComplete := false, credentialSaved := false, isRecording := false,
    wsOpen := false, accumulatedText := "", currentTurnActive := false }

/-- Models disconnect() lines 386-425: capture and transport released, all
per-connection state reset.  localStorage is not cleared, so the saved
credential survives. -/
def drvDisconnect (st : DrvSt) : DrvSt :=
  { st with isRecording := false, wsOpen := false, setupComplete := false,
            accumulatedText := "", currentTurnActive := false }

/-- One driver step: transport open sends setup and starts the microphone;
a message goes through handleGeminiResponse; transport close disconnects. -/
def drvStep (st : DrvSt) (ev : WsEvent) : DrvSt :=
  match ev with
  | WsEvent.transportOpen => { st with wsOpen := true, isRecording := true }
  | WsEvent.message m =>
    let h := (MainJS.handleGeminiResponse
      { setupComplete := st.setupComplete, credentialSaved := st.credentialSaved,
        accumulatedText := st.accumulatedText,
        currentTurnActive := st.currentTurnActive } m).1
    { st with setupComplete := h.setupComplete, credentialSaved := h.credentialSaved,
              accumulatedText := h.accumulatedText,
              currentTurnActive := h.currentTurnActive }
  | WsEvent.transportClose => drvDisconnect st

/-- Run the driver from page load over an event list. -/
def drvRun (evs : List WsEvent) : DrvSt := evs.foldl drvStep drvInit

end MainJS

namespace Part002

/-
The part_002 driver has the same connectToGemini shape (lines 63-118: onopen
sends setup and starts the microphone; onclose disconnects) but routes
messages through the part_002 handler, which also carries the
toolConfig/config acknowledgement branch that forces setupComplete WITHOUT
writing the credential.
-/

/-- Driver state of the segmented websocket lineage: the handler state plus
capture and transport flags. -/
structure DrvSt where
  setupComplete : Bool
  credentialSaved : Bool
  isProcessing : Bool
  hasSpeech : Bool
  isRecording : Bool
  wsOpen : Bool
  accumulatedText : String

/-- Driver state before connect. -/
def drvInit : DrvSt :=
  { setupComplete := false, credentialSaved := false, isProcessing := false,
    hasSpeech := false, isRecording := false, wsOpen := false,
    accumulatedText := "" }

/-- Models part_002 disconnect() lines 581-635: capture, timers and
transport released, all per-connection state reset.  localStorage is not
cleared, so the saved credential survives. -/
def drvDisconnect (st : DrvSt) : DrvSt :=
  { st with isRecording := false, isProcessing := false, wsOpen := false,
            setupComplete := false, hasSpeech := false, accumulatedText := "" }

/-- One driver step of the part_002 lineage: transport open sends setup and
starts the microphone (access assumed granted); a message goes through
Part002.handleGeminiResponse; transport close disconnects. -/
def drvStep (st : DrvSt) (ev : WsEvent) : DrvSt :=
  match ev with
  | WsEvent.transportOpen => { st with wsOpen := true, isRecording := true }
  | WsEvent.message m =>
    let h := (Part002.handleGeminiResponse
      { setupComplete := st.setupComplete, credentialSaved := st.credentialSaved,
        isProcessing := st.isProcessing, hasSpeech := st.hasSpeech,
        accumulatedText := st.accumulatedText } m).1
    { st with setupComplete := h.setupComplete, credentialSaved := h.credentialSaved,
              isProcessing := h.isProcessing, hasSpeech := h.hasSpeech,
              accumulatedText := h.accumulatedText }
  | WsEvent.transportClose => drvDisconnect st

/-- Run the part_002 driver from page load over an event list. -/
def drvRun (evs : List WsEvent) : DrvSt := evs.foldl drvStep drvInit

end Part002

/-
Per-frame audio sends (claim C9 guards).
-/

/-- State read by the audio-process callbacks. -/
structure AudioSt where
  isRecording : Bool
  setupComplete : Bool
  wsOpen : Bool
  audioChunkCount : Nat

namespace MainJS

/-- Models src/main.js processAudioChunk lines 155-194: the frame is dropped
unless recording, setup complete and the socket open; otherwise the frame is
encoded and one realtimeInput message is sent. -/
def processAudioChunk (st : AudioSt) (samples : List ℚ) : AudioSt × List String :=
  if !st.isRecording || !st.setupComplete || !st.wsOpen then (st, [])
  else ({ st with audioChunkCount := st.audioChunkCount + 1 }, [frameEncode samples])

end MainJS

namespace GeminiLive

/-- Models the onaudioprocess callback of src/gemini-live.js lines 167-190:
the frame is dropped unless recording, setup complete and the session
present (wsOpen models this.session being non-null); otherwise createBlob is
sent. -/
def onaudioprocess (st : AudioSt) (samples : List ℚ) : AudioSt × List String :=
  if !st.isRecording || !st.setupComplete || !st.wsOpen then (st, [])
  else ({ st with audioChunkCount := st.audioChunkCount + 1 }, [createBlobData samples])

end GeminiLive

/-
Voice Activity Segmenter (src/unnamed/part_002 processAudioChunk lines
158-249, sendAudioForAnalysis lines 259-362, disconnect lines 581-635).
Timers are modelled by the expiry time held in the JS variable plus a fired
flag: the variable is NOT nulled by the timer callback itself (the source
callbacks never clear their own handle), which is what blocks re-arming
until a flush or disconnect clears it.
-/

namespace Part002

/-- Segmenter state.  sends and speechStarts are observation traces (the
times at which an utterance was sent, and the recorded utterance start
times); they shadow no source variable and influence nothing. -/
structure SegSt where
  isRecording : Bool
  isProcessing : Bool
  setupComplete : Bool
  wsOpen : Bool
  hasSpeech : Bool
  speechStartTime : Nat
  lastSoundTime : Nat
  consecutiveSpeechFrames : Nat
  consecutiveSilenceFrames : Nat
  audioBuffer : List (List ℤ)
  silenceTimerVar : Option Nat
  silenceFired : Bool
  maxDurationTimerVar : Option Nat
  maxFired : Bool
  sends : List Nat
  speechStarts : List Nat

/-- Segmenter state right after a successful connect and setup handshake
with the microphone granted. -/
def segInit : SegSt :=
  { isRecording := true, isProcessing := false, setupComplete := true,
    wsOpen := true, hasSpeech := false, speechStartTime := 0, lastSoundTime := 0,
    consecutiveSpeechFrames := 0, consecutiveSilenceFrames := 0, audioBuffer := [],
    silenceTimerVar := none, silenceFired := false, maxDurationTimerVar := none,
    maxFired := false, sends := [], speechStarts := [] }

/-- Models sendAudioForAnalysis at time t: the early returns in source
order, then the flush that marks processing, clears timers, buffer and all
speech-tracking state, and sends the concatenated audio.  The payload
contents (concatenation, base64, the delayed prompt message and the 30 s
watchdog) do not affect any claim and only the send time is recorded. -/
def sendAudioForAnalysis (t : Nat) (st : SegSt) : SegSt :=
  if st.isProcessing || st.audioBuffer.isEmpty || !st.wsOpen then st
  else if !st.setupComplete then st
  else if !st.hasSpeech then { st with audioBuffer := [] }
  else
    { st with isProcessing := true,
              silenceTimerVar := none, silenceFired := false,
              maxDurationTimerVar := none, maxFired := false,
              audioBuffer := [], hasSpeech := false, speechStartTime := 0,
              consecutiveSpeechFrames := 0, consecutiveSilenceFrames := 0,
              sends := st.sends ++ [t] }

/-- The silence-timer callback, firing at its expiry time e. -/
def fireSilence (e : Nat) (st : SegSt) : SegSt :=
  let st1 := { st with silenceFired := true }
  if !st1.isProcessing && st1.hasSpeech then sendAudioForAnalysis e st1 else st1

/-- The max-duration-timer callback, firing at its expiry time e. -/
def fireMax (e : Nat) (st : SegSt) : SegSt :=
  let st1 := { st with maxFired := true }
  if !st1.isProcessing && st1.hasSpeech then sendAudioForAnalysis e st1 else st1

/-- Silence-timer expiry if armed, unfired and due by time t. -/
def dueSilence (t : Nat) (st : SegSt) : Option Nat :=
  match st.silenceTimerVar with
  | some e => if !st.silenceFired && decide (e ≤ t) then some e else none
  | none => none

/-- Max-timer expiry if armed, unfired and due by time t. -/
def dueMax (t : Nat) (st : SegSt) : Option Nat :=
  match st.maxDurationTimerVar with
  | some e => if !st.maxFired && decide (e ≤ t) then some e else none
  | none => none

/-- Fire the earliest due timer, if any (the silence timer first on a tie;
ties never arise in the runs considered). -/
def fireOne (t : Nat) (st : SegSt) : SegSt :=
  match dueSilence t st, dueMax t st with
  | some es, some em => if es ≤ em then fireSilence es st else fireMax em st
  | some es, none => fireSilence es st
  | none, some em => fireMax em st
  | none, none => st

/-- Fire every timer due by time t (at most two exist). -/
def fireDue (t : Nat) (st : SegSt) : SegSt := fireOne t (fireOne t st)

/-- Squares of the RMS thresholds: comparing the mean square against them is
equivalent to comparing the (nonnegative) RMS against 0.015 / 0.008, and
keeps the model inside ℚ. -/
def speechThreshSq : ℚ := (15 / 1000) ^ 2

/-- Square of SILENCE_THRESHOLD. -/
def silenceThreshSq : ℚ := (8 / 1000) ^ 2

/-- Mean square of a frame (calculateRMS without the final square root). -/
def meanSquare (samples : List ℚ) : ℚ :=
  (samples.map (fun x => x * x)).sum / (samples.length : ℚ)

/-- Counter update of lines 178-188: speaking and silent streaks exclude
each other, and the hysteresis dead zone resets both. -/
def updateCounters (isSpeaking isSilent : Bool) (st : SegSt) : SegSt :=
  if isSpeaking then
    { st with consecutiveSpeechFrames := st.consecutiveSpeechFrames + 1,
              consecutiveSilenceFrames := 0 }
  else if isSilent then
    { st with consecutiveSilenceFrames := st.consecutiveSilenceFrames + 1,
              consecutiveSpeechFrames := 0 }
  else
    { st with consecutiveSpeechFrames := 0, consecutiveSilenceFrames := 0 }

/-- The body of the if (hasSpeech) block of lines 205-248 at time t. -/
def hasSpeechBlock (t : Nat) (samples : List ℚ) (isSpeaking : Bool) (st : SegSt) : SegSt :=
  let st1 := { st with lastSoundTime := t,
                       audioBuffer := st.audioBuffer ++ [samples.map pcm16Sample] }
  let st2 :=
    if isSpeaking && st1.silenceTimerVar.isSome then
      { st1 with silenceTimerVar := none, silenceFired := false }
    else st1
  let speechDuration := t - st2.speechStartTime
  let st3 :=
    if st2.maxDurationTimerVar.isNone && decide (300 < speechDuration) then
      { st2 with maxDurationTimerVar := some (t + 15000), maxFired := false }
    else st2
  if decide (3 ≤ st3.consecutiveSilenceFrames) && st3.silenceTimerVar.isNone &&
      !st3.isProcessing && decide (300 < speechDuration) then
    { st3 with silenceTimerVar := some (t + 1700), silenceFired := false }
  else st3

/-- The speech-start trigger of lines 194-203: after two consecutive speech
frames and outside an utterance, record the start time and open one. -/
def speechStartStep (t : Nat) (st : SegSt) : SegSt :=
  if decide (2 ≤ st.consecutiveSpeechFrames) && !st.hasSpeech then
    { st with speechStartTime := t, hasSpeech := true,
              speechStarts := st.speechStarts ++ [t] }
  else st

/-- Models processAudioChunk at time t: drop while not recording or while a
turn is in flight; classify by RMS with hysteresis; update streaks; open an
utterance after two consecutive speech frames; while in speech, buffer the
frame and manage the timers. -/
def processAudioChunk (t : Nat) (samples : List ℚ) (st : SegSt) : SegSt :=
  if !st.isRecording || st.isProcessing then st
  else
    let ms := meanSquare samples
    let isSpeaking := decide (speechThreshSq < ms)
    let isSilent := decide (ms < silenceThreshSq)
    let st2 := speechStartStep t (updateCounters isSpeaking isSilent st)
    if st2.hasSpeech then hasSpeechBlock t samples isSpeaking st2 else st2

/-- Models disconnect lines 581-635: transport, capture, timers and all
per-connection state reset. -/
def segDisconnect (st : SegSt) : SegSt :=
  { st with isRecording := false, isProcessing := false, setupComplete := false,
            wsOpen := false, hasSpeech := false, speechStartTime := 0,
            consecutiveSpeechFrames := 0, consecutiveSilenceFrames := 0,
            audioBuffer := [], silenceTimerVar := none, silenceFired := false,
            maxDurationTimerVar := none, maxFired := false }

/-- Segmenter events: an audio frame delivered at a time, or a disconnect
request. -/
inductive SegEvent where
  | frame (t : Nat) (samples : List ℚ)
  | disconnectEv

/-- One scheduler step: timers due by the frame time fire before the frame
callback runs. -/
def segStep (st : SegSt) (ev : SegEvent) : SegSt :=
  match ev with
  | SegEvent.frame t samples => processAudioChunk t samples (fireDue t st)
  | SegEvent.disconnectEv => segDisconnect st

/-- Run the segmenter from the post-setup state over an event list. -/
def segRun (evs : List SegEvent) : SegSt := evs.foldl segStep segInit

/-- The C4 scenario: 16 s of continuous above-threshold input, one 256 ms
frame (4096 samples at 16 kHz) at a time, every sample at amplitude 0.1.
Each frame is summarised by a single 0.1 sample, which has the same mean
square and leaves the frame classification identical. -/
def c4Frames : List SegEvent :=
  (List.range 63).map (fun i => SegEvent.frame (256 * i) [1 / 10])

end Part002

/-
Concrete inputs used by the claims.
-/

/-- The C7 round-trip turn text. -/
def c7Text : String :=
  "\x7b\"transcript\":\"hi\",\"analysis\":\"calm\",\"emoji\":\"🙂\",\"color\":\"0xff00ff\",\"speed\":\"2\",\"smooth\":\"-1\"\x7d"

/-- The normalized record parseResponse produces for c7Text. -/
def c7Expected : AnalysisResult :=
  { transcript := some (Json.str ("hi")), analysis := some (Json.str ("calm")),
    sentiment := none, emotion := none, emoji := Json.str ("🙂"),
    confidence := none, color := some ("#ff00ff"), speed := some 1, smooth := some 0 }

/-- A small object exercising the clamping paths, used by the C7 witness. -/
def jC7w : Json := Json.obj [(("speed"), Json.num 5), (("smooth"), Json.str ("-3"))]

/-- Lower bound and upper bound of clampQ when the bounds are ordered. -/
theorem clampQ_bounds (lo hi x : ℚ) (h : lo ≤ hi) :
    lo ≤ clampQ lo hi x ∧ clampQ lo hi x ≤ hi := by
  unfold clampQ maxQ minQ
  split_ifs <;> constructor <;> linarith

/-- Whenever speedField recovers a number it lies in [-1, 1]. -/
theorem speedField_bounds (j : Json) (q : ℚ) (h : speedField j = some q) :
    -1 ≤ q ∧ q ≤ 1 := by
  have hb : (-1 : ℚ) ≤ 1 := by norm_num
  unfold speedField at h
  split at h
  · simp only [Option.some.injEq] at h; rw [← h]; exact clampQ_bounds _ _ _ hb
  · rcases Option.map_eq_some'.mp h with ⟨x, _, hq⟩
    rw [← hq]; exact clampQ_bounds _ _ _ hb
  · simp only [Option.some.injEq] at h; rw [← h]; exact clampQ_bounds _ _ _ hb
  · cases h

/-- Whenever smoothField recovers a number it lies in [0, 1]. -/
theorem smoothField_bounds (j : Json) (q : ℚ) (h : smoothField j = some q) :
    0 ≤ q ∧ q ≤ 1 := by
  have hb : (0 : ℚ) ≤ 1 := by norm_num
  unfold smoothField at h
  split at h
  · simp only [Option.some.injEq] at h; rw [← h]; exact clampQ_bounds _ _ _ hb
  · rcases Option.map_eq_some'.mp h with ⟨x, _, hq⟩
    rw [← hq]; exact clampQ_bounds _ _ _ hb
  · simp only [Option.some.injEq] at h; rw [← h]; exact clampQ_bounds _ _ _ hb
  · cases h

/-- C7: normalizing the turn text
\x7b"transcript":"hi","analysis":"calm","emoji":"🙂","color":"0xff00ff","speed":"2","smooth":"-1"\x7d
yields an AnalysisResult with color "#ff00ff" (leading 0x replaced by #),
speed 1 (string-coerced then clamped to [-1,1]) and smooth 0 (string-coerced
then clamped to [0,1]); and in general, whenever speed or smooth is
recoverable as a number, the normalized speed lies in [-1,1] and the
normalized smooth lies in [0,1]. -/
theorem claim_C7 :
    parseResponse c7Text = some c7Expected ∧
    (∀ (j : Json) (q : ℚ), (normalizeJson j).speed = some q → -1 ≤ q ∧ q ≤ 1) ∧
    (∀ (j : Json) (q : ℚ), (normalizeJson j).smooth = some q → 0 ≤ q ∧ q ≤ 1) := by
  refine ⟨by rfl, ?_, ?_⟩
  · intro j q h; exact speedField_bounds j q h
  · intro j q h; exact smoothField_bounds j q h

/-- Witness for C7 at a concrete object: speed "5" clamps to 1 and smooth
"-3" clamps to 0, inside the stated ranges. -/
theorem claim_C7_witness :
    (normalizeJson jC7w).speed = some 1 ∧ (normalizeJson jC7w).smooth = some 0 ∧
    (-1 ≤ (1 : ℚ) ∧ (1 : ℚ) ≤ 1) ∧ (0 ≤ (0 : ℚ) ∧ (0 : ℚ) ≤ 1) :=
  ⟨rfl, rfl, claim_C7.2.1 jC7w 1 rfl, claim_C7.2.2 jC7w 0 rfl⟩

/-- The C3 input: one valid JSON object, then trailing non-JSON text that
contains a later closing brace. -/
def c3Text : String := "\x7b\"transcript\":\"hi\",\"analysis\":\"ok\"\x7d oops \x7d"

/-- What parseResponse actually produces for c3Text: the dialect-3 fallback
record (transcript not recovered, analysis the whole text). -/
def c3D3Expected : AnalysisResult :=
  { transcript := none, analysis := some (Json.str c3Text),
    sentiment := none, emotion := none, emoji := Json.str ("💬"),
    confidence := none, color := none, speed := none, smooth := none }

/-- C3 counterexample: for the turn text
\x7b"transcript":"hi","analysis":"ok"\x7d oops \x7d — a valid JSON object
followed by trailing text with a later closing brace — the source does not
recover the first balanced object (which would give transcript "hi"): the
greedy first-brace-to-last-brace span fails to parse and the result falls
through to the plain-text dialect, with a null transcript. -/
theorem claim_C3_counterexample :
    strictParse c3Text = none ∧
    parseResponse c3Text = some c3D3Expected ∧ c3D3Expected.transcript = none := by
  exact ⟨rfl, rfl, rfl⟩

/-- C3 (amended): when strict JSON parsing of the trimmed turn text fails,
the Response Normalizer attempts to parse the substring running from the
first opening brace to the LAST closing brace of the text (a greedy span,
not the first balanced \x7b...\x7d); whenever that attempt also fails — as
it does for every text of the form (valid object)(trailing text containing a
later closing brace) — the normalizer falls through to the plain-text
dialect instead of recovering the first object. -/
theorem claim_C3 :
    (∀ t : String, strictParse t = none → jsonObtain t = embeddedParse t) ∧
    (∀ t : String, strictParse t = none → embeddedParse t = none →
      parseResponse t = dialect3 t) ∧
    greedySub c3Text = some c3Text ∧ embeddedParse c3Text = none := by
  refine ⟨?_, ?_, rfl, rfl⟩
  · intro t h1
    unfold jsonObtain
    rw [h1]
  · intro t h1 h2
    unfold parseResponse jsonObtain
    rw [h1, h2]

/-- Witness for C3 at c3Text: strict parsing fails, the greedy-span parse
fails, and parseResponse coincides with the plain-text dialect. -/
theorem claim_C3_witness :
    strictParse c3Text = none ∧ embeddedParse c3Text = none ∧
    jsonObtain c3Text = embeddedParse c3Text ∧
    parseResponse c3Text = dialect3 c3Text :=
  ⟨rfl, rfl, claim_C3.1 c3Text rfl, claim_C3.2.1 c3Text rfl rfl⟩

/-- A turn text whose lower-casing contains the filler phrases
"i'm ready" and "ready when you are", while still carrying Transcript /
Analysis / Emoji labels. -/
def c1ContText : String :=
  ("Transcript: I") ++ aposS ++ ("m ready when you are\n\nAnalysis: filler\n\nEmoji: X")

/-- The filler reply of the spec example. -/
def c1FillerReply : String := ("I") ++ aposS ++ ("m ready when you are")

/-- A main.js state mid-session (setup complete, no turn in flight). -/
def c1MainSt : MainJS.St :=
  { setupComplete := true, credentialSaved := true, accumulatedText := "",
    currentTurnActive := false }

/-- A part_002 state holding c1FillerReply as the completed turn text. -/
def c1SegSt : Part002.St :=
  { setupComplete := true, credentialSaved := true, isProcessing := true,
    hasSpeech := false, accumulatedText := c1FillerReply }

/-- C1 counterexample: in the continuous-streaming lineage (src/main.js), a
completed turn whose text contains the filler phrases is NOT discarded — the
turn-complete handler extracts a transcript and analysis and calls
addToTranscriptLog.  The filler filter lives in the segmented lineage
(part_002), not the continuous one. -/
theorem claim_C1_counterexample :
    containsFiller c1ContText = true ∧
    hasLog ((MainJS.handleGeminiResponse c1MainSt
      (Msg.content (some [c1ContText]) true false)).2) = true := by
  exact ⟨rfl, rfl⟩

/-- C1 (amended): the filler filter belongs to the segmented lineage, not
the continuous one.  In part_002, on a completed turn whose nonempty
accumulated text fails the isActualAnalysis test (length at most 20, or a
filler phrase — "i'm ready", "please provide", "waiting for", "ready when
you are", "send the audio" — contained case-insensitively), the turn is
treated as not an analysis: no transcript-log call is made, the accumulator
is reset and isProcessing is cleared.  The continuous lineages apply no such
filter (see the counterexample). -/
theorem claim_C1 :
    ∀ st : Part002.St, ¬(st.accumulatedText = "") →
      isActualAnalysis st.accumulatedText = false →
      hasLog ((Part002.handleGeminiResponse st (Msg.content none true false)).2) = false ∧
      ((Part002.handleGeminiResponse st (Msg.content none true false)).1).accumulatedText = "" ∧
      ((Part002.handleGeminiResponse st (Msg.content none true false)).1).isProcessing = false := by
  intro st h1 h2
  have hne : (st.accumulatedText == "") = false := by
    simp only [beq_eq_false_iff_ne, ne_eq]
    exact h1
  unfold Part002.handleGeminiResponse
  simp only [hne, h2, Bool.false_eq_true, if_false]
  cases st.hasSpeech <;> simp [hasLog]

/-- Witness for C1: the filler reply "I'm ready when you are" (nonempty, 22
characters, containing "i'm ready") is dropped by the segmented lineage with
no transcript-log call. -/
theorem claim_C1_witness :
    ¬(c1SegSt.accumulatedText = "") ∧ isActualAnalysis c1SegSt.accumulatedText = false ∧
    hasLog ((Part002.handleGeminiResponse c1SegSt (Msg.content none true false)).2) = false ∧
    ((Part002.handleGeminiResponse c1SegSt (Msg.content none true false)).1).accumulatedText = "" ∧
    ((Part002.handleGeminiResponse c1SegSt (Msg.content none true false)).1).isProcessing = false := by
  have h1 : ¬(c1SegSt.accumulatedText = "") := by decide
  have h2 : isActualAnalysis c1SegSt.accumulatedText = false := by rfl
  rcases claim_C1 c1SegSt h1 h2 with ⟨a, b, c⟩
  exact ⟨h1, h2, a, b, c⟩

/-- A main.js state with a turn in flight and accumulated text. -/
def c6MainSt : MainJS.St :=
  { setupComplete := true, credentialSaved := true, accumulatedText := "abc",
    currentTurnActive := true }

/-- An SDK-lineage state with accumulated text. -/
def c6SdkSt : GeminiLive.St :=
  { setupComplete := true, credentialSaved := true, isRecording := true,
    accumulatedText := "abc", currentTurnActive := true, timerPending := false }

/-- C6 counterexample: the claim fails in two lineages.  In src/main.js the
error branch resets the accumulator but does NOT clear currentTurnActive
(only the malformed-message catch does); in src/gemini-live.js the onerror
callback resets nothing at all — the accumulator keeps the aborted turn
text. -/
theorem claim_C6_counterexample :
    ((MainJS.handleGeminiResponse c6MainSt (Msg.errorMsg ("boom"))).1).currentTurnActive
      = true ∧
    ((GeminiLive.onerror c6SdkSt ("boom")).1).accumulatedText = "abc" ∧
    ((GeminiLive.onerror c6SdkSt ("boom")).1).currentTurnActive = true := by
  exact ⟨rfl, rfl, rfl⟩

/-- C6 (amended): on an inbound error payload, the websocket lineages reset
the accumulator to the empty string, surface the error message as status
text, and forward no text to the Response Normalizer or the log - but
main.js leaves the turnActive flag unchanged (part_002 has no such flag; it
clears isProcessing instead), and the SDK lineage only surfaces status text,
leaving the accumulator and turn flag untouched. -/
theorem claim_C6 :
    ∀ (st : MainJS.St) (st2 : Part002.St) (g : GeminiLive.St) (m : String),
      ((MainJS.handleGeminiResponse st (Msg.errorMsg m)).1).accumulatedText = "" ∧
      ((MainJS.handleGeminiResponse st (Msg.errorMsg m)).1).currentTurnActive
        = st.currentTurnActive ∧
      (MainJS.handleGeminiResponse st (Msg.errorMsg m)).2
        = [SinkCall.status (("Error: ") ++ m)] ∧
      ((Part002.handleGeminiResponse st2 (Msg.errorMsg m)).1).accumulatedText = "" ∧
      ((Part002.handleGeminiResponse st2 (Msg.errorMsg m)).1).isProcessing = false ∧
      (Part002.handleGeminiResponse st2 (Msg.errorMsg m)).2
        = [SinkCall.status (("Error: ") ++ m)] ∧
      (GeminiLive.onerror g m).1 = g ∧
      (GeminiLive.onerror g m).2 = [SinkCall.status (("Gemini error: ") ++ m)] := by
  intro st st2 g m
  exact ⟨rfl, rfl, rfl, rfl, rfl, rfl, rfl, rfl⟩

/-- Driver state reached by the open event alone (websocket lineage). -/
def c5AfterOpen : MainJS.DrvSt := MainJS.drvRun [WsEvent.transportOpen]

/-- C5 counterexample: audio capture does not begin at the
AwaitingSetup-to-Ready transition.  In the websocket lineage the microphone
is started inside the transport-open handler, before any setup-complete
marker (isRecording already true while setupComplete is still false); and in
the SDK lineage the credential is persisted inside the transport-open
handler, with no marker involved at all. -/
theorem claim_C5_counterexample :
    c5AfterOpen.isRecording = true ∧ c5AfterOpen.setupComplete = false ∧
    c5AfterOpen.credentialSaved = false ∧
    (GeminiLive.onopen GeminiLive.initSt).credentialSaved = true ∧
    (GeminiLive.onopen GeminiLive.initSt).setupComplete = false := by
  exact ⟨rfl, rfl, rfl, rfl, rfl⟩

/-- One-step form of the credential invariant: a step can only establish
credentialSaved through the setup-complete marker. -/
theorem drvStep_credential (st : MainJS.DrvSt) (ev : WsEvent)
    (h : (MainJS.drvStep st ev).credentialSaved = true) :
    st.credentialSaved = true ∨ ev = WsEvent.message Msg.setupDone := by
  cases ev with
  | transportOpen => exact Or.inl h
  | transportClose => exact Or.inl h
  | message m =>
    cases m with
    | setupDone => exact Or.inr rfl
    | configMsg => exact Or.inl h
    | errorMsg s => exact Or.inl h
    | malformed => exact Or.inl h
    | content mt tc intr =>
      left
      unfold MainJS.drvStep MainJS.handleGeminiResponse at h
      cases mt <;> simp only at h <;> (repeat' split at h) <;> simp_all

/-- The credential invariant over any event sequence, from any start. -/
theorem drvRun_credential_aux :
    ∀ (evs : List WsEvent) (st : MainJS.DrvSt),
      (evs.foldl MainJS.drvStep st).credentialSaved = true →
      st.credentialSaved = true ∨ WsEvent.message Msg.setupDone ∈ evs := by
  intro evs
  induction evs with
  | nil => intro st h; exact Or.inl h
  | cons ev rest ih =>
    intro st h
    rcases ih (MainJS.drvStep st ev) h with h1 | h2
    · rcases drvStep_credential st ev h1 with ha | hb
      · exact Or.inl ha
      · right; rw [hb]; exact List.mem_cons_self _ _
    · right; exact List.mem_cons_of_mem _ h2

/-- One-step form of the part_002 credential invariant: a step can only
establish credentialSaved through the setup-complete marker — in particular
the toolConfig/config acknowledgement does not. -/
theorem p002DrvStep_credential (st : Part002.DrvSt) (ev : WsEvent)
    (h : (Part002.drvStep st ev).credentialSaved = true) :
    st.credentialSaved = true ∨ ev = WsEvent.message Msg.setupDone := by
  cases ev with
  | transportOpen => exact Or.inl h
  | transportClose => exact Or.inl h
  | message m =>
    cases m with
    | setupDone => exact Or.inr rfl
    | configMsg => exact Or.inl h
    | errorMsg s => exact Or.inl h
    | malformed => exact Or.inl h
    | content mt tc intr =>
      left
      unfold Part002.drvStep Part002.handleGeminiResponse at h
      cases mt <;> simp only at h <;> (repeat' split at h) <;> simp_all

/-- The part_002 credential invariant over any event sequence, from any
start. -/
theorem p002DrvRun_credential_aux :
    ∀ (evs : List WsEvent) (st : Part002.DrvSt),
      (evs.foldl Part002.drvStep st).credentialSaved = true →
      st.credentialSaved = true ∨ WsEvent.message Msg.setupDone ∈ evs := by
  intro evs
  induction evs with
  | nil => intro st h; exact Or.inl h
  | cons ev rest ih =>
    intro st h
    rcases ih (Part002.drvStep st ev) h with h1 | h2
    · rcases p002DrvStep_credential st ev h1 with ha | hb
      · exact Or.inl ha
      · right; rw [hb]; exact List.mem_cons_self _ _
    · right; exact List.mem_cons_of_mem _ h2

/-- C5 (amended): in both websocket lineages — main.js and part_002 — the
credential is persisted only as a side effect of receiving the
setup-complete marker (in part_002 even the toolConfig/config
acknowledgement, which forces setupComplete without a marker, does not
persist it), but audio capture begins already inside the transport-open
handler, before any marker; in the SDK lineage both the credential write
(immediately) and capture start (via a 500 ms timer) are side effects of the
transport opening, with no setup-complete marker involved. -/
theorem claim_C5 :
    (∀ evs : List WsEvent, (MainJS.drvRun evs).credentialSaved = true →
      WsEvent.message Msg.setupDone ∈ evs) ∧
    (∀ evs : List WsEvent, (Part002.drvRun evs).credentialSaved = true →
      WsEvent.message Msg.setupDone ∈ evs) ∧
    c5AfterOpen.isRecording = true ∧ c5AfterOpen.setupComplete = false ∧
    (Part002.drvRun [WsEvent.transportOpen]).isRecording = true ∧
    (Part002.drvRun [WsEvent.transportOpen]).setupComplete = false ∧
    (Part002.drvRun
      [WsEvent.transportOpen, WsEvent.message Msg.configMsg]).setupComplete = true ∧
    (Part002.drvRun
      [WsEvent.transportOpen, WsEvent.message Msg.configMsg]).credentialSaved = false ∧
    (GeminiLive.onopen GeminiLive.initSt).credentialSaved = true ∧
    (GeminiLive.openTimerFire (GeminiLive.onopen GeminiLive.initSt)).isRecording
      = true := by
  refine ⟨?_, ?_, rfl, rfl, rfl, rfl, rfl, rfl, rfl, rfl⟩
  · intro evs h
    rcases drvRun_credential_aux evs MainJS.drvInit h with h1 | h2
    · cases h1
    · exact h2
  · intro evs h
    rcases p002DrvRun_credential_aux evs Part002.drvInit h with h1 | h2
    · cases h1
    · exact h2

/-- Witness for C5: runs of both websocket lineages that save the
credential do contain the setup-complete marker event — for part_002 even
when a config acknowledgement arrives first. -/
theorem claim_C5_witness :
    (MainJS.drvRun [WsEvent.transportOpen, WsEvent.message Msg.setupDone]).credentialSaved
      = true ∧
    WsEvent.message Msg.setupDone
      ∈ [WsEvent.transportOpen, WsEvent.message Msg.setupDone] ∧
    (Part002.drvRun [WsEvent.transportOpen, WsEvent.message Msg.configMsg,
      WsEvent.message Msg.setupDone]).credentialSaved = true ∧
    WsEvent.message Msg.setupDone
      ∈ [WsEvent.transportOpen, WsEvent.message Msg.configMsg,
         WsEvent.message Msg.setupDone] :=
  ⟨rfl, claim_C5.1 [WsEvent.transportOpen, WsEvent.message Msg.setupDone] rfl,
   rfl, claim_C5.2.1 [WsEvent.transportOpen, WsEvent.message Msg.configMsg,
     WsEvent.message Msg.setupDone] rfl⟩

/-- An audio-callback state before setup completion. -/
def c9AudioSt : AudioSt :=
  { isRecording := true, setupComplete := false, wsOpen := true, audioChunkCount := 0 }

/-- A segmenter state holding a buffered utterance before setup completion. -/
def c9SegSt : Part002.SegSt :=
  { isRecording := true, isProcessing := false, setupComplete := false,
    wsOpen := true, hasSpeech := true, speechStartTime := 0, lastSoundTime := 0,
    consecutiveSpeechFrames := 2, consecutiveSilenceFrames := 0,
    audioBuffer := [[3276]], silenceTimerVar := none, silenceFired := false,
    maxDurationTimerVar := none, maxFired := false, sends := [], speechStarts := [] }

/-- C9: no realtime audio message is ever sent while setupComplete is false.
The continuous lineages guard every per-frame send in the audio-process
callback (the frame is dropped entirely), and in the segmented lineage
sendAudioForAnalysis returns without sending, leaving the buffered utterance
intact. -/
theorem claim_C9 :
    (∀ (st : AudioSt) (samples : List ℚ), st.setupComplete = false →
      MainJS.processAudioChunk st samples = (st, [])) ∧
    (∀ (st : AudioSt) (samples : List ℚ), st.setupComplete = false →
      GeminiLive.onaudioprocess st samples = (st, [])) ∧
    (∀ (t : Nat) (st : Part002.SegSt), st.setupComplete = false →
      (Part002.sendAudioForAnalysis t st).sends = st.sends ∧
      (Part002.sendAudioForAnalysis t st).audioBuffer = st.audioBuffer) := by
  refine ⟨?_, ?_, ?_⟩
  · intro st samples h
    unfold MainJS.processAudioChunk
    simp [h]
  · intro st samples h
    unfold GeminiLive.onaudioprocess
    simp [h]
  · intro t st h
    unfold Part002.sendAudioForAnalysis
    split
    · exact ⟨rfl, rfl⟩
    · simp [h]

/-- Witness for C9 at concrete pre-setup states: the frame is dropped in
both continuous lineages and the segmented flush keeps its buffer. -/
theorem claim_C9_witness :
    MainJS.processAudioChunk c9AudioSt [1 / 2] = (c9AudioSt, []) ∧
    GeminiLive.onaudioprocess c9AudioSt [1 / 2] = (c9AudioSt, []) ∧
    ((Part002.sendAudioForAnalysis 0 c9SegSt).sends = c9SegSt.sends ∧
     (Part002.sendAudioForAnalysis 0 c9SegSt).audioBuffer = c9SegSt.audioBuffer) :=
  ⟨claim_C9.1 c9AudioSt [1 / 2] rfl, claim_C9.2.1 c9AudioSt [1 / 2] rfl,
   claim_C9.2.2 0 c9SegSt rfl⟩

/-- Every result parseResponse returns has a truthy transcript or a truthy
analysis (the guards of both dialects enforce it). -/
theorem parseResponse_usable (t : String) (r : AnalysisResult)
    (h : parseResponse t = some r) :
    (jsTruthyO r.transcript || jsTruthyO r.analysis) = true := by
  have hd3 : ∀ r2 : AnalysisResult, dialect3 t = some r2 →
      (jsTruthyO r2.transcript || jsTruthyO r2.analysis) = true := by
    intro r2 h2
    simp only [dialect3] at h2
    split at h2
    · rename_i hguard
      simp only [Option.some.injEq] at h2
      rw [← h2]
      simp only []
      have : ∀ o : Option String, jsTruthyO (o.map Json.str) = truthyS o := by
        intro o; cases o <;> rfl
      rw [this]
      simpa [jsTruthyO, jsTruthy] using hguard
    · cases h2
  simp only [parseResponse] at h
  split at h
  · rename_i j hj
    split at h
    · rename_i hguard
      simp only [Option.some.injEq] at h
      rw [← h]
      exact hguard
    · exact hd3 r h
  · exact hd3 r h

/-- C10: in the continuous SDK lineage, over every result actually produced
by parseResponse, addToTranscriptLog is invoked only when both transcript
and analysis are non-null; a result whose analysis alone is non-null gets
updateDisplay but never addToTranscriptLog; and a result whose transcript
alone is non-null produces no call from the result-dispatch block at all. -/
theorem claim_C10 :
    ∀ (t : String) (r : AnalysisResult), parseResponse t = some r →
      (hasLog (GeminiLive.responseSinkCalls r) = true →
        ¬(r.transcript = none) ∧ ¬(r.analysis = none)) ∧
      (r.transcript = none → ¬(r.analysis = none) →
        hasDisplay (GeminiLive.responseSinkCalls r) = true ∧
        hasLog (GeminiLive.responseSinkCalls r) = false) ∧
      (¬(r.transcript = none) → r.analysis = none →
        GeminiLive.responseSinkCalls r = []) := by
  intro t r hpr
  have husable := parseResponse_usable t r hpr
  refine ⟨?_, ?_, ?_⟩
  · intro hlog
    unfold GeminiLive.responseSinkCalls at hlog
    split at hlog
    · rename_i hboth
      have h1 := hboth
      rw [Bool.and_eq_true] at h1
      constructor
      · intro hn; rw [hn] at h1; simp [jsTruthyO] at h1
      · intro hn; rw [hn] at h1; simp [jsTruthyO] at h1
    · split at hlog <;> simp [hasLog] at hlog
  · intro htn han
    have htf : jsTruthyO r.transcript = false := by rw [htn]; rfl
    have haf : jsTruthyO r.analysis = true := by
      rw [htf] at husable
      simpa using husable
    unfold GeminiLive.responseSinkCalls
    rw [htf, haf]
    simp [hasDisplay, hasLog]
  · intro htn han
    have haf : jsTruthyO r.analysis = false := by rw [han]; rfl
    unfold GeminiLive.responseSinkCalls
    rw [haf]
    simp

/-- The dialect-3 result for the C10 witness text. -/
def c10wRes : AnalysisResult :=
  { transcript := none, analysis := some (Json.str ("warm")), sentiment := none,
    emotion := none, emoji := Json.str ("💬"), confidence := none, color := none,
    speed := none, smooth := none }

/-- Witness for C10: the turn text "Analysis: warm" produces a result whose
analysis alone is non-null; the dispatch calls updateDisplay and never
addToTranscriptLog. -/
theorem claim_C10_witness :
    parseResponse ("Analysis: warm") = some c10wRes ∧
    hasDisplay (GeminiLive.responseSinkCalls c10wRes) = true ∧
    hasLog (GeminiLive.responseSinkCalls c10wRes) = false := by
  have h := (claim_C10 ("Analysis: warm") c10wRes rfl).2.1 rfl
    (fun hx => Option.noConfusion hx)
  exact ⟨rfl, h.1, h.2⟩

/-- C4 counterexample: with 256 ms frames of continuous above-threshold
input for 16 s, speech starts at the second frame (t = 256 ms) and the
single flush happens at t = 15768 ms — that is 15512 ms after utterance
start, not the 15000 ms the claim states, because the 15000 ms timer is
armed only at the first frame whose elapsed speech duration exceeds 300 ms
(t = 768 ms) and runs from that arming time. -/
theorem claim_C4_counterexample :
    (Part002.segRun Part002.c4Frames).sends = [15768] ∧
    (Part002.segRun Part002.c4Frames).speechStarts = [256] ∧
    ¬(15768 - 256 = 15000) := by
  set_option maxRecDepth 100000 in decide

/-- C4 (amended): the max-duration timer is armed at the first processed
frame whose elapsed speech duration exceeds MIN_SPEECH_DURATION (300 ms) and
fires MAX_UTTERANCE_DURATION (15000 ms) after that arming frame, not after
utterance start; its callback flushes only while hasSpeech still holds and
no turn is in flight.  For 16 s of continuous above-threshold 256 ms frames
the utterance is force-flushed once, 15512 ms after speech start (at input
time 15768 ms). -/
theorem claim_C4 :
    ((Part002.segRun Part002.c4Frames).sends = [15768] ∧
     (Part002.segRun Part002.c4Frames).speechStarts = [256] ∧
     15768 - 256 = 15512) ∧
    (∀ (e : Nat) (st : Part002.SegSt), st.hasSpeech = false →
      (Part002.fireMax e st).sends = st.sends) ∧
    (∀ (e : Nat) (st : Part002.SegSt), st.isProcessing = true →
      (Part002.fireMax e st).sends = st.sends) := by
  refine ⟨by set_option maxRecDepth 100000 in decide, ?_, ?_⟩
  · intro e st h
    unfold Part002.fireMax
    simp [h]
  · intro e st h
    unfold Part002.fireMax
    simp [h]

/-- Witness for C4: a fired max-duration timer with no speech in flight
flushes nothing. -/
theorem claim_C4_witness :
    Part002.segInit.hasSpeech = false ∧
    (Part002.fireMax 0 Part002.segInit).sends = Part002.segInit.sends :=
  ⟨rfl, claim_C4.2.1 0 Part002.segInit rfl⟩

/-- The C8 invariant: the speech and silence streak counters are never both
positive. -/
def SegInv (st : Part002.SegSt) : Prop :=
  st.consecutiveSpeechFrames = 0 ∨ st.consecutiveSilenceFrames = 0

/-- A state with the same counters as one satisfying the invariant
satisfies it. -/
theorem SegInv_of_counters_eq (s1 s2 : Part002.SegSt)
    (h1 : s1.consecutiveSpeechFrames = s2.consecutiveSpeechFrames)
    (h2 : s1.consecutiveSilenceFrames = s2.consecutiveSilenceFrames)
    (h : SegInv s2) : SegInv s1 := by
  unfold SegInv at *
  rw [h1, h2]
  exact h

/-- The counter update establishes the invariant outright. -/
theorem updateCounters_inv (a b : Bool) (st : Part002.SegSt) :
    SegInv (Part002.updateCounters a b st) := by
  unfold Part002.updateCounters
  split
  · exact Or.inr rfl
  · split
    · exact Or.inl rfl
    · exact Or.inl rfl

/-- A flush never breaks the invariant. -/
theorem sendAudio_inv (t : Nat) (st : Part002.SegSt) (h : SegInv st) :
    SegInv (Part002.sendAudioForAnalysis t st) := by
  unfold Part002.sendAudioForAnalysis
  split
  · exact h
  · split
    · exact h
    · split
      · exact h
      · exact Or.inl rfl

/-- The silence-timer callback never breaks the invariant. -/
theorem fireSilence_inv (e : Nat) (st : Part002.SegSt) (h : SegInv st) :
    SegInv (Part002.fireSilence e st) := by
  simp only [Part002.fireSilence]
  split
  · exact sendAudio_inv _ _ h
  · exact h

/-- The max-duration-timer callback never breaks the invariant. -/
theorem fireMax_inv (e : Nat) (st : Part002.SegSt) (h : SegInv st) :
    SegInv (Part002.fireMax e st) := by
  simp only [Part002.fireMax]
  split
  · exact sendAudio_inv _ _ h
  · exact h

/-- The one-timer scheduler step never breaks the invariant. -/
theorem fireOne_inv (t : Nat) (st : Part002.SegSt) (h : SegInv st) :
    SegInv (Part002.fireOne t st) := by
  unfold Part002.fireOne
  rcases Part002.dueSilence t st with _ | es <;> rcases Part002.dueMax t st with _ | em
  · exact h
  · exact fireMax_inv _ _ h
  · exact fireSilence_inv _ _ h
  · dsimp only
    split
    · exact fireSilence_inv _ _ h
    · exact fireMax_inv _ _ h

/-- Firing all due timers never breaks the invariant. -/
theorem fireDue_inv (t : Nat) (st : Part002.SegSt) (h : SegInv st) :
    SegInv (Part002.fireDue t st) :=
  fireOne_inv t _ (fireOne_inv t st h)

/-- The speech-start trigger does not touch the counters. -/
theorem speechStartStep_counters (t : Nat) (st : Part002.SegSt) :
    (Part002.speechStartStep t st).consecutiveSpeechFrames
      = st.consecutiveSpeechFrames ∧
    (Part002.speechStartStep t st).consecutiveSilenceFrames
      = st.consecutiveSilenceFrames := by
  unfold Part002.speechStartStep
  split <;> exact ⟨rfl, rfl⟩

/-- The in-speech block does not touch the counters. -/
theorem hasSpeechBlock_counters (t : Nat) (samples : List ℚ) (isSpeaking : Bool)
    (st : Part002.SegSt) :
    (Part002.hasSpeechBlock t samples isSpeaking st).consecutiveSpeechFrames
      = st.consecutiveSpeechFrames ∧
    (Part002.hasSpeechBlock t samples isSpeaking st).consecutiveSilenceFrames
      = st.consecutiveSilenceFrames := by
  simp only [Part002.hasSpeechBlock]
  repeat' split
  all_goals exact ⟨rfl, rfl⟩

/-- Processing one frame never breaks the invariant. -/
theorem processAudioChunk_inv (t : Nat) (samples : List ℚ) (st : Part002.SegSt)
    (h : SegInv st) : SegInv (Part002.processAudioChunk t samples st) := by
  simp only [Part002.processAudioChunk]
  split
  · exact h
  · have hup := updateCounters_inv
      (decide (Part002.speechThreshSq < Part002.meanSquare samples))
      (decide (Part002.meanSquare samples < Part002.silenceThreshSq)) st
    have hss := speechStartStep_counters t
      (Part002.updateCounters
        (decide (Part002.speechThreshSq < Part002.meanSquare samples))
        (decide (Part002.meanSquare samples < Part002.silenceThreshSq)) st)
    have hst2 := SegInv_of_counters_eq _ _ hss.1 hss.2 hup
    split
    · rcases hasSpeechBlock_counters t samples
        (decide (Part002.speechThreshSq < Part002.meanSquare samples)) _ with ⟨ha, hb⟩
      exact SegInv_of_counters_eq _ _ ha hb hst2
    · exact hst2

/-- Disconnect resets both counters. -/
theorem segDisconnect_inv (st : Part002.SegSt) : SegInv (Part002.segDisconnect st) :=
  Or.inl rfl

/-- One scheduler step never breaks the invariant. -/
theorem segStep_inv (st : Part002.SegSt) (ev : Part002.SegEvent) (h : SegInv st) :
    SegInv (Part002.segStep st ev) := by
  cases ev with
  | frame t samples => exact processAudioChunk_inv t samples _ (fireDue_inv t st h)
  | disconnectEv => exact segDisconnect_inv st

/-- The invariant holds after any event sequence from any invariant state. -/
theorem segRun_inv_aux :
    ∀ (evs : List Part002.SegEvent) (st : Part002.SegSt), SegInv st →
      SegInv (evs.foldl Part002.segStep st) := by
  intro evs
  induction evs with
  | nil => intro st h; exact h
  | cons ev rest ih => intro st h; exact ih _ (segStep_inv st ev h)

/-- C8: for every sequence of frames, flushes (timer-driven) and
disconnects, the Voice Activity Segmenter never has consecutiveSpeechFrames
and consecutiveSilenceFrames simultaneously positive: after any event
sequence at least one of the two streak counters is zero. -/
theorem claim_C8 :
    ∀ evs : List Part002.SegEvent,
      (Part002.segRun evs).consecutiveSpeechFrames = 0 ∨
      (Part002.segRun evs).consecutiveSilenceFrames = 0 := by
  intro evs
  exact segRun_inv_aux evs Part002.segInit (Or.inl rfl)

/-- Wrapping is the identity on the signed 16-bit range. -/
theorem wrapInt16_eq (n : ℤ) (h1 : -32768 ≤ n) (h2 : n ≤ 32767) : wrapInt16 n = n := by
  unfold wrapInt16
  omega

/-- Clamping is the identity on [-1, 1]. -/
theorem clampSample_eq (x : ℚ) (h1 : -1 ≤ x) (h2 : x ≤ 1) : clampSample x = x := by
  unfold clampSample maxQ minQ
  split_ifs <;> linarith

/-- The clamped sample lies in [-1, 1]. -/
theorem clampSample_bounds (x : ℚ) : -1 ≤ clampSample x ∧ clampSample x ≤ 1 := by
  unfold clampSample maxQ minQ
  split_ifs <;> constructor <;> linarith

/-- The scaled truncation of a clamped sample lies in the signed 16-bit
range (so the Int16Array store never wraps in the websocket lineages). -/
theorem pcm16_trunc_bounds (x : ℚ) :
    -32768 ≤ jsTruncQ (if clampSample x < 0 then clampSample x * 32768
      else clampSample x * 32767) ∧
    jsTruncQ (if clampSample x < 0 then clampSample x * 32768
      else clampSample x * 32767) ≤ 32767 := by
  rcases clampSample_bounds x with ⟨hc1, hc2⟩
  by_cases hneg : clampSample x < 0
  · rw [if_pos hneg]
    unfold jsTruncQ
    have hy : clampSample x * 32768 < 0 := by nlinarith
    rw [if_pos hy]
    constructor
    · have hgt : ((-32769 : ℤ) : ℚ) < clampSample x * 32768 := by push_cast; nlinarith
      have := Int.lt_ceil.mpr hgt
      omega
    · have hle : clampSample x * 32768 ≤ ((0 : ℤ) : ℚ) := by push_cast; linarith
      have := Int.ceil_le.mpr hle
      omega
  · rw [if_neg hneg]
    push_neg at hneg
    unfold jsTruncQ
    have hy : ¬(clampSample x * 32767 < 0) := by push_neg; nlinarith
    rw [if_neg hy]
    push_neg at hy
    constructor
    · have hge : ((0 : ℤ) : ℚ) ≤ clampSample x * 32767 := by push_cast; linarith
      have := Int.le_floor.mpr hge
      omega
    · have hlt : clampSample x * 32767 < ((32768 : ℤ) : ℚ) := by push_cast; nlinarith
      have := Int.floor_lt.mpr hlt
      omega

/-- The websocket-lineage sample store never actually wraps. -/
theorem pcm16Sample_eq (x : ℚ) :
    pcm16Sample x = jsTruncQ (if clampSample x < 0 then clampSample x * 32768
      else clampSample x * 32767) := by
  unfold pcm16Sample
  exact wrapInt16_eq _ (pcm16_trunc_bounds x).1 (pcm16_trunc_bounds x).2

/-- The encoded sample lies in the signed 16-bit range. -/
theorem pcm16Sample_bounds (x : ℚ) :
    -32768 ≤ pcm16Sample x ∧ pcm16Sample x ≤ 32767 := by
  rw [pcm16Sample_eq]
  exact pcm16_trunc_bounds x

/-- Core of C2: one sample round-trips to within one quantization step. -/
theorem roundtrip_sample (x : ℚ) (h1 : -1 ≤ x) (h2 : x ≤ 1) :
    |decodeSample (pcm16Sample x) - x| ≤ 1 / 32767 := by
  rw [pcm16Sample_eq, clampSample_eq x h1 h2]
  by_cases hx : x < 0
  · rw [if_pos hx]
    unfold jsTruncQ
    have hy : x * 32768 < 0 := by nlinarith
    rw [if_pos hy]
    have hub : ((⌈x * 32768⌉ : ℤ) : ℚ) < x * 32768 + 1 := by
      exact_mod_cast Int.ceil_lt_add_one (x * 32768)
    have hlb : (x * 32768 : ℚ) ≤ ((⌈x * 32768⌉ : ℤ) : ℚ) := Int.le_ceil _
    by_cases hv : (⌈x * 32768⌉ : ℤ) < 0
    · unfold decodeSample
      rw [if_pos hv]
      rw [abs_le]
      constructor <;> nlinarith [hub, hlb]
    · have hle : (⌈x * 32768⌉ : ℤ) ≤ 0 := by
        have := Int.ceil_le.mpr (le_of_lt (show x * 32768 < ((0 : ℤ) : ℚ) by push_cast; linarith))
        omega
      have hz : (⌈x * 32768⌉ : ℤ) = 0 := by omega
      unfold decodeSample
      rw [hz]
      rw [if_neg (by omega)]
      rw [hz] at hub
      push_cast at hub
      rw [abs_le]
      constructor <;> [nlinarith; nlinarith]
  · rw [if_neg hx]
    push_neg at hx
    unfold jsTruncQ
    have hy : ¬(x * 32767 < 0) := by push_neg; nlinarith
    rw [if_neg hy]
    have hub : (x * 32767 : ℚ) < ((⌊x * 32767⌋ : ℤ) : ℚ) + 1 := by
      exact_mod_cast Int.lt_floor_add_one (x * 32767)
    have hlb : ((⌊x * 32767⌋ : ℤ) : ℚ) ≤ x * 32767 := Int.floor_le _
    have hge : (0 : ℤ) ≤ ⌊x * 32767⌋ := by
      exact Int.le_floor.mpr (by push_cast; nlinarith)
    unfold decodeSample
    rw [if_neg (by omega)]
    rw [abs_le]
    constructor <;> nlinarith [hub, hlb]

/-- Little-endian byte split then signed recombination is the identity on
the signed 16-bit range. -/
theorem toBytes_signed (v : ℤ) (h1 : -32768 ≤ v) (h2 : v ≤ 32767) (rest : List Nat) :
    bytePairsToInts (toBytesLE v ++ rest) = v :: bytePairsToInts rest := by
  unfold toBytesLE
  simp only [List.cons_append, List.nil_append, bytePairsToInts]
  congr 1
  unfold signed16
  split <;> omega

/-- The two bytes of a sample are bytes. -/
theorem toBytesLE_lt (v : ℤ) : ∀ b ∈ toBytesLE v, b < 256 := by
  unfold toBytesLE
  intro b hb
  simp only [List.mem_cons, List.not_mem_nil, or_false] at hb
  rcases hb with h | h <;> omega

/-- The 6-bit values produced by the regrouping are at most 64. -/
theorem b64_vals_le :
    ∀ (n : Nat) (bs : List Nat), bs.length ≤ n → (∀ b ∈ bs, b < 256) →
      ∀ v ∈ b64EncodeVals bs, v ≤ 64 := by
  intro n
  induction n with
  | zero =>
    intro bs hl _
    match bs with
    | [] => intro v hv; cases hv
    | b :: rest => simp at hl
  | succ n ih =>
    intro bs hl hb
    match bs with
    | [] => intro v hv; cases hv
    | [b0] =>
      have h0 := hb b0 (by simp)
      intro v hv
      simp only [b64EncodeVals, List.mem_cons, List.not_mem_nil, or_false] at hv
      rcases hv with h | h | h | h <;> omega
    | [b0, b1] =>
      have h0 := hb b0 (by simp)
      have h1 := hb b1 (by simp)
      intro v hv
      simp only [b64EncodeVals, List.mem_cons, List.not_mem_nil, or_false] at hv
      rcases hv with h | h | h | h <;> omega
    | b0 :: b1 :: b2 :: rest =>
      have h0 := hb b0 (by simp)
      have h1 := hb b1 (by simp)
      have h2 := hb b2 (by simp)
      intro v hv
      simp only [b64EncodeVals, List.mem_cons] at hv
      rcases hv with h | h | h | h | h
      · omega
      · omega
      · omega
      · omega
      · exact ih rest (by simp only [List.length_cons] at hl; omega)
          (fun b hbm => hb b (by simp [hbm])) v h

/-- Regrouping bytes into 6-bit values and back is the identity. -/
theorem b64_roundtrip_vals :
    ∀ (n : Nat) (bs : List Nat), bs.length ≤ n → (∀ b ∈ bs, b < 256) →
      b64DecodeVals (b64EncodeVals bs) = bs := by
  intro n
  induction n with
  | zero =>
    intro bs hl _
    match bs with
    | [] => rfl
    | b :: rest => simp at hl
  | succ n ih =>
    intro bs hl hb
    match bs with
    | [] => rfl
    | [b0] =>
      have h0 := hb b0 (by simp)
      simp only [b64EncodeVals, b64DecodeVals]
      split_ifs with hA
      · simp only [List.cons.injEq, and_true]
        omega
      · exact absurd trivial hA
    | [b0, b1] =>
      have h0 := hb b0 (by simp)
      have h1 := hb b1 (by simp)
      simp only [b64EncodeVals, b64DecodeVals]
      split_ifs with hA
      · omega
      · simp only [List.cons.injEq, and_true]
        omega
    | b0 :: b1 :: b2 :: rest =>
      have h0 := hb b0 (by simp)
      have h1 := hb b1 (by simp)
      have h2 := hb b2 (by simp)
      simp only [b64EncodeVals, b64DecodeVals]
      rw [if_neg (by omega), if_neg (by omega)]
      rw [ih rest (by simp only [List.length_cons] at hl; omega)
        (fun b hbm => hb b (by simp [hbm]))]
      simp only [List.cons.injEq]
      refine ⟨by omega, by omega, by omega, trivial⟩

/-- Mapping a function that fixes every element is the identity. -/
theorem map_id_on {α : Type} (f : α → α) :
    ∀ l : List α, (∀ x ∈ l, f x = x) → l.map f = l := by
  intro l
  induction l with
  | nil => intro _; rfl
  | cons a rest ih =>
    intro h
    simp only [List.map_cons]
    rw [h a (by simp), ih (fun x hx => h x (by simp [hx]))]

/-- Alphabet then inverse alphabet is the identity on 6-bit values and the
padding mark. -/
theorem b64CharVal_id : ∀ v : Nat, v ≤ 64 → b64CharToVal (b64CharOfVal v) = v := by
  decide

/-- btoa then atob is the identity on byte lists. -/
theorem b64_str_roundtrip (bs : List Nat) (h : ∀ b ∈ bs, b < 256) :
    b64DecodeStr (b64EncodeStr bs) = bs := by
  unfold b64DecodeStr b64EncodeStr
  have hmk : (String.mk ((b64EncodeVals bs).map b64CharOfVal)).toList
      = (b64EncodeVals bs).map b64CharOfVal := rfl
  rw [hmk, List.map_map]
  have hcomp : (b64EncodeVals bs).map (b64CharToVal ∘ b64CharOfVal) = b64EncodeVals bs :=
    map_id_on _ _ (fun v hv =>
      b64CharVal_id v (b64_vals_le bs.length bs (le_refl _) h v hv))
  rw [hcomp]
  exact b64_roundtrip_vals bs.length bs (le_refl _) h

/-- Every byte of an encoded frame is a byte. -/
theorem samplesToBytes_lt (samples : List ℚ) :
    ∀ b ∈ samplesToBytes samples, b < 256 := by
  induction samples with
  | nil => intro b hb; cases hb
  | cons x rest ih =>
    intro b hb
    unfold samplesToBytes at hb
    simp only [List.map_cons, List.flatten_cons, List.mem_append] at hb
    rcases hb with h | h
    · exact toBytesLE_lt _ b h
    · exact ih b h

/-- Unpairing the frame bytes recovers exactly the encoded samples. -/
theorem bytePairs_samples (samples : List ℚ) :
    bytePairsToInts (samplesToBytes samples) = samples.map pcm16Sample := by
  induction samples with
  | nil => rfl
  | cons x rest ih =>
    unfold samplesToBytes
    simp only [List.map_cons, List.flatten_cons]
    rw [toBytes_signed _ (pcm16Sample_bounds x).1 (pcm16Sample_bounds x).2]
    unfold samplesToBytes at ih
    rw [ih]

/-- The full websocket Frame Encoder pipeline: base64 decode plus reverse
scale recovers the per-sample decode of the per-sample encode. -/
theorem frame_roundtrip (samples : List ℚ) :
    frameDecode (frameEncode samples)
      = samples.map (fun x => decodeSample (pcm16Sample x)) := by
  unfold frameDecode frameEncode
  rw [b64_str_roundtrip _ (samplesToBytes_lt samples), bytePairs_samples,
    List.map_map]
  rfl

/-- C2 counterexample: the SDK-lineage Frame Encoder (createBlob in
src/gemini-live.js) multiplies by 32768 with no clamp and no sign split, so
the sample 1.0 is stored as 32768, which wraps to the negative full-scale
value -32768 — not 32767. -/
theorem claim_C2_counterexample :
    createBlobSample 1 = -32768 ∧ ¬(createBlobSample 1 = 32767) ∧
    createBlobSample 1 < 0 := by
  decide

/-- C2 (amended): the websocket-lineage Frame Encoder (main.js
processAudioChunk / part_002 sendAudioForAnalysis) clamps each sample to
[-1,1], scales negatives by 32768 and non-negatives by 32767 with truncation
to a signed 16-bit integer, and for every sample already in [-1,1] the
base64-decoded, reverse-scaled output is within one quantization step
(1/32767) of the input, with 1.0 encoding to 32767.  The SDK-lineage
createBlob does not satisfy this: it scales every sample by 32768 without
clamping, so 1.0 wraps to -32768 (see the counterexample). -/
theorem claim_C2 :
    (∀ x : ℚ, -1 ≤ x → x ≤ 1 → |decodeSample (pcm16Sample x) - x| ≤ 1 / 32767) ∧
    pcm16Sample 1 = 32767 ∧
    (∀ samples : List ℚ, (∀ x ∈ samples, -1 ≤ x ∧ x ≤ 1) →
      List.Forall₂ (fun y x => |y - x| ≤ 1 / 32767)
        (frameDecode (frameEncode samples)) samples) := by
  refine ⟨roundtrip_sample, by decide, ?_⟩
  intro samples h
  rw [frame_roundtrip]
  induction samples with
  | nil => exact List.Forall₂.nil
  | cons x rest ih =>
    simp only [List.map_cons]
    exact List.Forall₂.cons
      (roundtrip_sample x (h x (by simp)).1 (h x (by simp)).2)
      (ih (fun y hy => h y (by simp [hy])))

/-- Witness for C2 at the sample 1/2 and the frame [1/2]. -/
theorem claim_C2_witness :
    |decodeSample (pcm16Sample (1 / 2)) - 1 / 2| ≤ 1 / 32767 ∧
    List.Forall₂ (fun y x => |y - x| ≤ 1 / 32767)
      (frameDecode (frameEncode [1 / 2])) [1 / 2] :=
  ⟨claim_C2.1 (1 / 2) (by norm_num) (by norm_num),
   claim_C2.2.2 [1 / 2] (by intro x hx; simp at hx; rw [hx]; norm_num)⟩
